import Mathlib

/-!
# A shallow embedding of the dqlite request-dispatch gateway

This file models `src/gateway.c` of the dqlite repository: the per-connection
request/response slot machine, the per-opcode handlers, the WAL checkpoint
hook, and the streaming-query flush/resume protocol.  External collaborators
(the cluster interface, the SQL engine's prepare/bind/exec/step/finalize
entry points) are modelled as oracles supplied in an environment value: each
oracle field records the outcome the external call would produce, and the
gateway definitions below are direct transliterations of the C control flow
over those outcomes.
-/

namespace Dqlite

/-! ## Result codes (sqlite3.h standard values; DQLITE_PROTO from dqlite.h) -/

def SQLITE_OK : Int := 0
def SQLITE_ERROR : Int := 1
def SQLITE_BUSY : Int := 5
def SQLITE_NOMEM : Int := 7
def SQLITE_NOTFOUND : Int := 12
def SQLITE_ROW : Int := 100
def SQLITE_DONE : Int := 101

/-- Modelled from the spec: `include/dqlite.h` is not under `src/`; the spec
only requires that the PROTOCOL error kind returned by `handle` on a busy
slot is a non-zero code. -/
def DQLITE_PROTO : Int := 4

/-! ## WAL checkpoint hook (`dqlite__gateway_maybe_checkpoint`)

The hook reads the first shared-memory region of the WAL (header `mxFrame`
plus the reader marks) and probes the per-reader shared-memory locks.  We
model the shared-memory snapshot and the lock outcomes as explicit data. -/

/-- Modelled from the spec: `format.h` is not under `src/`; the constant
mirrors SQLite's WAL reader-slot count (5), and no claim depends on its
exact value. -/
def DQLITE__FORMAT_WAL_NREADER : Nat := 5

/-- Snapshot of the WAL shared-memory state observed by the checkpoint hook:
the `mxFrame` header field, the reader marks array, and for each reader slot
whether the exclusive shared-memory lock attempt (`xShmLock`) would return
`SQLITE_BUSY`. -/
structure WalShm where
  mxFrame : Nat
  readMarks : List Nat
  lockBusy : List Bool
deriving Repr, DecidableEq

/-- The scan of reader slots in `dqlite__gateway_maybe_checkpoint`: walk the
given slot indices in order; for a slot whose read mark is strictly below
`mxFrame`, probe its exclusive lock; return `true` (a busy reader was found,
checkpoint postponed) at the first busy slot.  Slots whose mark is not set
below `mxFrame`, or whose lock is acquired (and immediately released), are
skipped. -/
def walScanLocked (shm : WalShm) : List Nat → Bool
  | [] => false
  | i :: rest =>
    if shm.mxFrame > shm.readMarks.getD i 0 then
      if shm.lockBusy.getD i false then true
      else walScanLocked shm rest
    else walScanLocked shm rest

/-- `dqlite__gateway_maybe_checkpoint`: returns the hook's return code
together with whether `cluster.xCheckpoint` was invoked. -/
def dqlite__gateway_maybe_checkpoint (checkpoint_threshold : Nat) (shm : WalShm)
    (pages : Nat) : Int × Bool :=
  if pages < checkpoint_threshold then (SQLITE_OK, false)
  else if walScanLocked shm (List.range' 1 (DQLITE__FORMAT_WAL_NREADER - 1)) then
    (SQLITE_OK, false)
  else (SQLITE_OK, true)

/-! ## Responses -/

inductive RowsEof
  | part
  | done
deriving Repr, DecidableEq

/-- The tagged response union (`response.h`): one variant per wire response. -/
inductive Response
  | failure (code : Int) (message : String)
  | server (address : String)
  | servers (servers : List (Nat × String))
  | welcome (heartbeatTimeout : Nat)
  | db (id : Nat)
  | stmt (dbId : Nat) (id : Nat) (params : Nat)
  | result (lastInsertId : Nat) (rowsAffected : Nat)
  | rows (eof : RowsEof)
  | empty
deriving Repr, DecidableEq

/-- `dqlite__gateway_response_reset` only releases heap-owned strings of the
`SERVER`/`SERVERS` variants; on the value level it changes nothing. -/
def dqlite__gateway_response_reset (r : Response) : Response := r

/-! ## Statements and the DB handle

A `Stmt` models one prepared statement together with the oracle outcomes of
the external SQL-engine calls made on it: the bind outcome for the current
request's parameter tuple, the exec outcome, and the successive return codes
of `dqlite__stmt_query` (one per batch step). -/

structure Stmt where
  id : Nat
  /-- whether the compiled object is non-NULL (`stmt->stmt != NULL`);
  `false` models an empty tail (whitespace/comments only). -/
  hasCompiled : Bool
  /-- residual SQL text (`stmt->tail`), `none` for a NULL tail. -/
  tail : Option String
  /-- `sqlite3_bind_parameter_count` of the compiled form. -/
  params : Nat
  /-- outcome of `dqlite__stmt_bind` against the request's message. -/
  bindRc : Int
  /-- outcome of `dqlite__stmt_exec`. -/
  execRc : Int
  lastInsertId : Nat
  rowsAffected : Nat
  /-- successive return codes of `dqlite__stmt_query`, one per batch. -/
  queryRcs : List Int
  /-- outcome of `dqlite__db_finalize` on this statement. -/
  finalizeRc : Int
  /-- `stmt->error`. -/
  error : String
deriving Repr, DecidableEq

/-- One call to `dqlite__stmt_query`: consume the next step outcome; a
statement with no outcomes left reports `SQLITE_DONE`. -/
def dqlite__stmt_query (st : Stmt) : Int × Stmt :=
  match st.queryRcs with
  | [] => (SQLITE_DONE, st)
  | rc :: rest => (rc, { st with queryRcs := rest })

/-- The DB handle: numeric id, registry of prepared statements, last error
text. -/
structure DB where
  id : Nat
  stmts : List Stmt
  error : String
deriving Repr, DecidableEq

/-- `dqlite__db_stmt`: look up a statement by id in the registry. -/
def dqlite__db_stmt (db : DB) (id : Nat) : Option Stmt :=
  db.stmts.find? (fun st => st.id = id)

/-- Oracle outcome of one `dqlite__db_prepare` call: either a compile failure
(return code plus the `db->error` text it leaves behind) or a freshly
registered statement. -/
inductive PrepOutcome
  | failure (rc : Int) (dbError : String)
  | success (st : Stmt)
deriving Repr, DecidableEq

/-! ## Requests -/

/-- The request payloads, following the opcode table of the protocol
(`request.h` is not under `src/`; the set of recognized opcodes is the one
the spec lists, and dispatch is modelled on the payload constructor rather
than on the raw opcode number).  `unknown n` stands for any unrecognized
opcode `n`. -/
inductive RequestPayload
  | leader
  | client (clientId : Nat)
  | heartbeat
  | opendb (name : String) (flags : Int)
  | prepare (dbId : Nat) (sql : String)
  | exec (dbId : Nat) (stmtId : Nat)
  | query (dbId : Nat) (stmtId : Nat)
  | finalize (dbId : Nat) (stmtId : Nat)
  | execSql (dbId : Nat) (sql : Option String)
  | querySql (dbId : Nat) (sql : String)
  | interrupt
  | unknown (n : Nat)
deriving Repr, DecidableEq

structure Request where
  payload : RequestPayload
  timestamp : Nat
deriving Repr, DecidableEq

/-! ## Gateway state -/

/-- The two request-context slots (`DQLITE__GATEWAY_MAX_REQUESTS = 2`):
slot 0 is the data-plane slot, slot 1 the control-plane slot. -/
inductive Slot
  | s0
  | s1
deriving Repr, DecidableEq

/-- One request context: the in-flight request (null when free), the
suspended streaming cursor (null when no streaming is in progress), and the
response buffer. -/
structure GatewayCtx where
  request : Option Request
  stmt : Option Stmt
  response : Response
deriving Repr, DecidableEq

structure Options where
  heartbeatTimeout : Nat
  checkpointThreshold : Nat
deriving Repr, DecidableEq

structure Gateway where
  clientId : Nat
  error : String
  ctx0 : GatewayCtx
  ctx1 : GatewayCtx
  db : Option DB
  heartbeat : Nat
  options : Options
deriving Repr, DecidableEq

def Gateway.ctx (g : Gateway) : Slot → GatewayCtx
  | .s0 => g.ctx0
  | .s1 => g.ctx1

def Gateway.modifyCtx (g : Gateway) : Slot → (GatewayCtx → GatewayCtx) → Gateway
  | .s0, f => { g with ctx0 := f g.ctx0 }
  | .s1, f => { g with ctx1 := f g.ctx1 }

def Gateway.setResponse (g : Gateway) (s : Slot) (r : Response) : Gateway :=
  g.modifyCtx s (fun c => { c with response := r })

def Gateway.setStmt (g : Gateway) (s : Slot) (v : Option Stmt) : Gateway :=
  g.modifyCtx s (fun c => { c with stmt := v })

def Gateway.setRequest (g : Gateway) (s : Slot) (v : Option Request) : Gateway :=
  g.modifyCtx s (fun c => { c with request := v })

/-! ## Oracle environment for external calls -/

/-- Outcomes of the external calls a single `handle` invocation may make:
the cluster interface results and the SQL-engine compile outcomes.
`preps` lists the outcomes of successive `dqlite__db_prepare` calls (the
`exec_sql` loop consumes several). -/
structure Env where
  /-- `cluster->xLeader`: leader address, `NULL` when there is no leader. -/
  leaderAddr : Option String
  /-- `cluster->xServers` return code. -/
  serversRc : Int
  /-- servers list produced by `cluster->xServers` on success. -/
  serversList : List (Nat × String)
  /-- `cluster->xBarrier` return code. -/
  barrierRc : Int
  /-- whether `sqlite3_malloc` of the DB handle succeeds. -/
  mallocOk : Bool
  /-- `dqlite__db_open` return code. -/
  openRc : Int
  /-- `db->error` text after a failed `dqlite__db_open`. -/
  openErr : String
  /-- successive `dqlite__db_prepare` outcomes. -/
  preps : List PrepOutcome
deriving Repr, DecidableEq

/-! ## Per-opcode handlers

Each handler is a transliteration of the corresponding C function: it
receives the oracle environment, the gateway, the slot of its request
context, and the request (the C code reads it through `ctx->request`, which
`handle` has just bound).  A handler updates the slot's response buffer,
the gateway error slot, and — for `open`/`prepare`/`finalize`/`exec_sql` —
the DB state. -/

/-- `dqlite__gateway_failure`: render a `FAILURE` response borrowing the
gateway's current error string. -/
def dqlite__gateway_failure (g : Gateway) (s : Slot) (code : Int) : Gateway :=
  g.setResponse s (Response.failure code g.error)

def dqlite__gateway_leader (env : Env) (g : Gateway) (s : Slot) : Gateway :=
  match env.leaderAddr with
  | none =>
    let g := { g with error := "failed to get cluster leader" }
    dqlite__gateway_failure g s SQLITE_NOMEM
  | some addr => g.setResponse s (Response.server addr)

def dqlite__gateway_client (g : Gateway) (s : Slot) : Gateway :=
  g.setResponse s (Response.welcome g.options.heartbeatTimeout)

def dqlite__gateway_heartbeat (env : Env) (g : Gateway) (s : Slot)
    (req : Request) : Gateway :=
  if env.serversRc ≠ SQLITE_OK then
    let g := { g with error := "failed to get cluster servers" }
    dqlite__gateway_failure g s env.serversRc
  else
    let g := g.setResponse s (Response.servers env.serversList)
    { g with heartbeat := req.timestamp }

def dqlite__gateway_open (env : Env) (g : Gateway) (s : Slot)
    (_name : String) (_flags : Int) : Gateway :=
  match g.db with
  | some _ =>
    let g := { g with error := "a database for this connection is already open" }
    dqlite__gateway_failure g s SQLITE_BUSY
  | none =>
    if ¬ env.mallocOk then
      let g := { g with error := "unable to create database" }
      dqlite__gateway_failure g s SQLITE_NOMEM
    else
      -- dqlite__db_init; g->db->id = 0; dqlite__db_open(name, flags, ...)
      if env.openRc ≠ 0 then
        -- propagate db->error, close and free the half-initialized DB
        let g := { g with error := env.openErr }
        let g := dqlite__gateway_failure g s env.openRc
        { g with db := none }
      else
        let g := { g with db := some { id := 0, stmts := [], error := "" } }
        g.setResponse s (Response.db 0)

/-- The failure rendered by the `DQLITE__GATEWAY_BARRIER` macro (the macro
is textually inlined at the top of each data-plane handler, as the C
preprocessor does). -/
def barrierFailure (env : Env) (g : Gateway) (s : Slot) : Gateway :=
  dqlite__gateway_failure { g with error := "raft barrier failed" } s env.barrierRc

/-- The failure rendered by the `DQLITE__GATEWAY_LOOKUP_DB` macro. -/
def noDbFailure (g : Gateway) (s : Slot) (id : Nat) : Gateway :=
  dqlite__gateway_failure { g with error := s!"no db with id {id}" } s
    SQLITE_NOTFOUND

/-- The failure rendered by the `DQLITE__GATEWAY_LOOKUP_STMT` macro. -/
def noStmtFailure (g : Gateway) (s : Slot) (id : Nat) : Gateway :=
  dqlite__gateway_failure { g with error := s!"no stmt with id {id}" } s
    SQLITE_NOTFOUND

/-- `dqlite__db_prepare` modelled on the oracle list: consume the next
outcome; on success the statement is registered in the DB's table.  An
exhausted oracle behaves as a compile failure (claims always supply enough
outcomes). -/
def dqlite__db_prepare (preps : List PrepOutcome) (db : DB) :
    (Except (Int × String) (Stmt × DB)) × List PrepOutcome :=
  match preps with
  | [] => (Except.error (SQLITE_ERROR, "prepare oracle exhausted"), [])
  | PrepOutcome.failure rc e :: rest => (Except.error (rc, e), rest)
  | PrepOutcome.success st :: rest =>
    (Except.ok (st, { db with stmts := db.stmts ++ [st] }), rest)

def dqlite__gateway_prepare (env : Env) (g : Gateway) (s : Slot)
    (dbId : Nat) : Gateway :=
  if env.barrierRc ≠ 0 then barrierFailure env g s
  else match g.db with
  | none => noDbFailure g s dbId
  | some db =>
    if db.id ≠ dbId then noDbFailure g s dbId
    else match (dqlite__db_prepare env.preps db).1 with
    | Except.error (rc, e) =>
      let g := { g with error := e, db := some { db with error := e } }
      dqlite__gateway_failure g s rc
    | Except.ok (st, db') =>
      let g := { g with db := some db' }
      g.setResponse s (Response.stmt dbId st.id st.params)

def dqlite__gateway_exec (env : Env) (g : Gateway) (s : Slot)
    (dbId : Nat) (stmtId : Nat) : Gateway :=
  if env.barrierRc ≠ 0 then barrierFailure env g s
  else match g.db with
  | none => noDbFailure g s dbId
  | some db =>
    if db.id ≠ dbId then noDbFailure g s dbId
    else match dqlite__db_stmt db stmtId with
    | none => noStmtFailure g s stmtId
    | some st =>
      if st.bindRc ≠ SQLITE_OK then
        let g := { g with error := st.error }
        dqlite__gateway_failure g s st.bindRc
      else if st.execRc = SQLITE_OK then
        g.setResponse s (Response.result st.lastInsertId st.rowsAffected)
      else
        let g := { g with error := st.error }
        dqlite__gateway_failure g s st.execRc

/-- `dqlite__gateway_query_batch`: run one `dqlite__stmt_query` step and
fill the slot's response; a `ROW` outcome suspends the (advanced) statement
in the slot, `DONE` and errors clear the suspended cursor. -/
def dqlite__gateway_query_batch (g : Gateway) (st : Stmt) (s : Slot) : Gateway :=
  if (dqlite__stmt_query st).1 ≠ SQLITE_ROW ∧
      (dqlite__stmt_query st).1 ≠ SQLITE_DONE then
    (dqlite__gateway_failure { g with error := st.error } s
      (dqlite__stmt_query st).1).setStmt s none
  else if (dqlite__stmt_query st).1 = SQLITE_ROW then
    (g.setResponse s (Response.rows RowsEof.part)).setStmt s
      (some (dqlite__stmt_query st).2)
  else
    (g.setResponse s (Response.rows RowsEof.done)).setStmt s none

def dqlite__gateway_query (env : Env) (g : Gateway) (s : Slot)
    (dbId : Nat) (stmtId : Nat) : Gateway :=
  if env.barrierRc ≠ 0 then barrierFailure env g s
  else match g.db with
  | none => noDbFailure g s dbId
  | some db =>
    if db.id ≠ dbId then noDbFailure g s dbId
    else match dqlite__db_stmt db stmtId with
    | none => noStmtFailure g s stmtId
    | some st =>
      if st.bindRc ≠ SQLITE_OK then
        let g := { g with error := st.error }
        dqlite__gateway_failure g s st.bindRc
      else
        dqlite__gateway_query_batch g st s

/-- `dqlite__db_finalize`: remove the statement from the registry; the
return code is the statement's finalize outcome. -/
def dqlite__db_finalize (db : DB) (st : Stmt) : Int × DB :=
  (st.finalizeRc, { db with stmts := db.stmts.filter (fun q => q.id ≠ st.id) })

def dqlite__gateway_finalize (env : Env) (g : Gateway) (s : Slot)
    (dbId : Nat) (stmtId : Nat) : Gateway :=
  if env.barrierRc ≠ 0 then barrierFailure env g s
  else match g.db with
  | none => noDbFailure g s dbId
  | some db =>
    if db.id ≠ dbId then noDbFailure g s dbId
    else match dqlite__db_stmt db stmtId with
    | none => noStmtFailure g s stmtId
    | some st =>
      if (dqlite__db_finalize db st).1 = SQLITE_OK then
        ({ g with db := some (dqlite__db_finalize db st).2 }).setResponse s
          Response.empty
      else
        dqlite__gateway_failure
          { g with db := some (dqlite__db_finalize db st).2,
                   error := (dqlite__db_finalize db st).2.error } s
          (dqlite__db_finalize db st).1

/-! ## `exec_sql` -/

/-- Result of the `exec_sql` multi-statement loop: the updated gateway and,
when `dqlite__db_finalize` was reached at `out:`, the id of the statement
passed to it (`some none` = a NULL statement).  `finalized = none` records
the early-`return` paths, which skip `out:` entirely. -/
structure ExecSqlOut where
  g : Gateway
  finalized : Option (Option Nat)
deriving Repr, DecidableEq

/-- The `out:` label of `dqlite__gateway_exec_sql`: finalize the current
statement (possibly NULL), ignoring the finalize return code. -/
def execSqlFinalizeOut (g : Gateway) (db : DB) (_s : Slot)
    (stmt : Option Stmt) : ExecSqlOut :=
  match stmt with
  | some st =>
    { g := { g with db := some (dqlite__db_finalize db st).2 }
      finalized := some (some st.id) }
  | none => { g := { g with db := some db }, finalized := some none }

/-- The `while` loop of `dqlite__gateway_exec_sql`, one recursive call per
iteration; `preps` supplies the successive compile outcomes; `stmt` is the
C local holding the last prepared statement; `sql` is the residual text
(`none` models a NULL pointer). -/
def execSqlLoop (g : Gateway) (db : DB) (s : Slot) (preps : List PrepOutcome)
    (stmt : Option Stmt) (sql : Option String) : ExecSqlOut :=
    if sql ≠ none ∧ sql ≠ some "" then
      match preps with
      | [] =>
        -- exhausted oracle: modelled as a compile failure
        let g := { g with error := "prepare oracle exhausted" }
        { g := { dqlite__gateway_failure g s SQLITE_ERROR with db := some db }
          finalized := none }
      | PrepOutcome.failure rc e :: _ =>
        let db := { db with error := e }
        let g := { g with error := e }
        { g := { dqlite__gateway_failure g s rc with db := some db }
          finalized := none }
      | PrepOutcome.success st :: rest =>
        let db := { db with stmts := db.stmts ++ [st] }
        if st.hasCompiled = false then
          execSqlFinalizeOut g db s (some st)
        else if st.bindRc ≠ SQLITE_OK then
          let g := { g with error := st.error }
          { g := { dqlite__gateway_failure g s st.bindRc with db := some db }
            finalized := none }
        else if st.execRc = SQLITE_OK then
          let g := g.setResponse s (Response.result st.lastInsertId st.rowsAffected)
          execSqlLoop g db s rest (some st) st.tail
        else
          let g := { g with error := st.error }
          let g := dqlite__gateway_failure g s st.execRc
          execSqlFinalizeOut g db s (some st)
    else
      execSqlFinalizeOut g db s stmt

def dqlite__gateway_exec_sql (env : Env) (g : Gateway) (s : Slot)
    (dbId : Nat) (sql : Option String) : ExecSqlOut :=
  if env.barrierRc ≠ 0 then { g := barrierFailure env g s, finalized := none }
  else match g.db with
  | none => { g := noDbFailure g s dbId, finalized := none }
  | some db =>
    if db.id ≠ dbId then { g := noDbFailure g s dbId, finalized := none }
    else execSqlLoop g db s env.preps none sql

def dqlite__gateway_query_sql (env : Env) (g : Gateway) (s : Slot)
    (dbId : Nat) : Gateway :=
  if env.barrierRc ≠ 0 then barrierFailure env g s
  else match g.db with
  | none => noDbFailure g s dbId
  | some db =>
    if db.id ≠ dbId then noDbFailure g s dbId
    else match (dqlite__db_prepare env.preps db).1 with
    | Except.error (rc, e) =>
      let g := { g with error := e, db := some { db with error := e } }
      dqlite__gateway_failure g s rc
    | Except.ok (st, db') =>
      let g := { g with db := some db' }
      if st.bindRc ≠ SQLITE_OK then
        let g := { g with error := st.error }
        dqlite__gateway_failure g s st.bindRc
      else
        dqlite__gateway_query_batch g st s

/-- Modelled from the spec: `dqlite__gateway_interrupt` is not under `src/`
(only its dispatch sites in `gateway.c` reference `DQLITE_REQUEST_INTERRUPT`).
Per spec §4.2 it cancels an in-progress streaming query on slot 0, clearing
slot 0's suspended cursor and request pointer, and responds `EMPTY`. -/
def dqlite__gateway_interrupt (g : Gateway) (s : Slot) : Gateway :=
  let g := g.setStmt Slot.s0 none
  let g := g.setRequest Slot.s0 none
  g.setResponse s Response.empty

/-! ## Dispatch: `ok_to_accept`, `handle`, `flushed` -/

/-- The designated slot for a request type: the second slot is reserved for
control requests (heartbeat and interrupt), the first for everything else
(including unrecognized opcodes, which fall to the `default:` branch of the
C `switch`). -/
def slotFor : RequestPayload → Slot
  | RequestPayload.heartbeat => Slot.s1
  | RequestPayload.interrupt => Slot.s1
  | _ => Slot.s0

/-- `dqlite__gateway_ok_to_accept`. -/
def dqlite__gateway_ok_to_accept (g : Gateway) (p : RequestPayload) : Bool :=
  ((g.ctx (slotFor p)).request).isNone

/-- Result of one `dqlite__gateway_handle` call: the return code, the new
gateway state, and the responses passed to the `xFlush` callback (in
order). -/
structure HandleOut where
  err : Int
  g : Gateway
  flushes : List Response
deriving Repr, DecidableEq

/-- The per-opcode dispatch `switch` of `dqlite__gateway_handle` (the
request has already been bound into the slot's context). -/
def dispatchRequest (env : Env) (g : Gateway) (s : Slot) (req : Request) :
    Gateway :=
  match req.payload with
  | RequestPayload.leader => dqlite__gateway_leader env g s
  | RequestPayload.client _ => dqlite__gateway_client g s
  | RequestPayload.heartbeat => dqlite__gateway_heartbeat env g s req
  | RequestPayload.opendb name flags => dqlite__gateway_open env g s name flags
  | RequestPayload.prepare dbId _ => dqlite__gateway_prepare env g s dbId
  | RequestPayload.exec dbId stmtId => dqlite__gateway_exec env g s dbId stmtId
  | RequestPayload.query dbId stmtId => dqlite__gateway_query env g s dbId stmtId
  | RequestPayload.finalize dbId stmtId =>
    dqlite__gateway_finalize env g s dbId stmtId
  | RequestPayload.execSql dbId sql =>
    (dqlite__gateway_exec_sql env g s dbId sql).g
  | RequestPayload.querySql dbId _ => dqlite__gateway_query_sql env g s dbId
  | RequestPayload.interrupt => dqlite__gateway_interrupt g s
  | RequestPayload.unknown n =>
    dqlite__gateway_failure { g with error := s!"invalid request type {n}" } s
      SQLITE_ERROR

/-- `dqlite__gateway_handle`: admission check, request binding, per-opcode
dispatch, then exactly one `xFlush` of the slot's response. -/
def dqlite__gateway_handle (env : Env) (g : Gateway) (req : Request) : HandleOut :=
  if ¬ dqlite__gateway_ok_to_accept g req.payload then
    { err := DQLITE_PROTO,
      g := { g with error := "concurrent request limit exceeded" },
      flushes := [] }
  else
    { err := 0,
      g := dispatchRequest env
        (Gateway.setRequest g (slotFor req.payload) (some req))
        (slotFor req.payload) req,
      flushes := [((dispatchRequest env
        (Gateway.setRequest g (slotFor req.payload) (some req))
        (slotFor req.payload) req).ctx (slotFor req.payload)).response] }

/-- `dqlite__gateway_query_resume`: step the suspended cursor once more and
flush the follow-up response. -/
def dqlite__gateway_query_resume (g : Gateway) (s : Slot) : Gateway × List Response :=
  match (g.ctx s).stmt with
  | some st =>
    let g := dqlite__gateway_query_batch g st s
    (g, [(g.ctx s).response])
  | none => (g, [])

/-- `dqlite__gateway_flushed`: the transport's completion callback for the
slot that owns `response` (pointer identity is modelled by the slot index):
release the response's dynamic memory, then either resume the streaming
query (one more batch and flush) or clear the slot's request pointer. -/
def dqlite__gateway_flushed (g : Gateway) (s : Slot) : Gateway × List Response :=
  let g := g.setResponse s (dqlite__gateway_response_reset ((g.ctx s).response))
  match (g.ctx s).stmt with
  | some _ => dqlite__gateway_query_resume g s
  | none => (g.setRequest s none, [])

/-- Drive a slot to completion: call `flushed` after every flushed response
(as the transport does) until a `flushed` call produces no further flush.
`fuel` bounds the number of `flushed` calls; the theorems supply enough. -/
def gatewayDrain : Nat → Gateway → Slot → Gateway × List Response
  | 0, g, _ => (g, [])
  | fuel + 1, g, s =>
    match dqlite__gateway_flushed g s with
    | (g', []) => (g', [])
    | (g', rs) =>
      let q := gatewayDrain fuel g' s
      (q.1, rs ++ q.2)

/-! ## Driving a gateway through a sequence of events -/

/-- One transport-level event: a request handed to `handle`, or a `flushed`
completion for one of the two slots. -/
inductive GAction
  | hreq (e : Env) (r : Request)
  | hflushed (s : Slot)

def gatewayStep (g : Gateway) : GAction → Gateway
  | GAction.hreq e r => (dqlite__gateway_handle e g r).g
  | GAction.hflushed s => (dqlite__gateway_flushed g s).1

def gatewayRun (g : Gateway) : List GAction → Gateway
  | [] => g
  | a :: rest => gatewayRun (gatewayStep g a) rest

/-- The gateway's heartbeat timestamp observed after each event. -/
def heartbeatTrace (g : Gateway) : List GAction → List Nat
  | [] => []
  | a :: rest =>
    let g' := gatewayStep g a
    g'.heartbeat :: heartbeatTrace g' rest

/-- The timestamp carried by an event, when it is a request. -/
def actionTimestamp : GAction → Option Nat
  | GAction.hreq _ r => some r.timestamp
  | GAction.hflushed _ => none

/-! ## Derived stream shapes -/

/-- The response sequence a suspended cursor with step outcomes `rcs`
produces when driven to completion: a `ROWS_PART` per `ROW`, terminated by
`ROWS_DONE` on `DONE` (or on exhaustion) or by a `FAILURE` on any other
code. -/
def streamTraceAux (err : String) : List Int → List Response
  | [] => [Response.rows RowsEof.done]
  | rc :: rest =>
    if rc = SQLITE_ROW then Response.rows RowsEof.part :: streamTraceAux err rest
    else if rc = SQLITE_DONE then [Response.rows RowsEof.done]
    else [Response.failure rc err]

def streamTrace (st : Stmt) : List Response :=
  streamTraceAux st.error st.queryRcs

/-- `PART* DONE` or `PART* FAILURE`: the regular shape the spec requires of
a streaming query's response sequence. -/
def partsThenTerminal : List Response → Bool
  | [Response.rows RowsEof.done] => true
  | [Response.failure _ _] => true
  | Response.rows RowsEof.part :: rest => partsThenTerminal rest
  | _ => false

/-! ## Theorems -/

/-- The reader-slot scan finds a busy trailing reader exactly when one of
the scanned slots has its mark strictly below `mxFrame` and its exclusive
lock attempt reports busy. -/
lemma walScanLocked_eq_true_iff (shm : WalShm) (l : List Nat) :
    walScanLocked shm l = true ↔
      ∃ i ∈ l, shm.readMarks.getD i 0 < shm.mxFrame ∧
        shm.lockBusy.getD i false = true := by
  induction l with
  | nil => simp [walScanLocked]
  | cons i rest ih =>
    simp only [walScanLocked]
    by_cases hmark : shm.mxFrame > shm.readMarks.getD i 0
    · by_cases hbusy : shm.lockBusy.getD i false = true
      · simp only [if_pos hmark, if_pos hbusy]
        constructor
        · intro _; exact ⟨i, List.mem_cons_self i rest, hmark, hbusy⟩
        · intro _; trivial
      · simp only [if_pos hmark, if_neg hbusy, ih]
        constructor
        · rintro ⟨j, hj, h1, h2⟩; exact ⟨j, List.mem_cons_of_mem i hj, h1, h2⟩
        · rintro ⟨j, hj, h1, h2⟩
          rcases List.mem_cons.mp hj with rfl | hj
          · exact absurd h2 hbusy
          · exact ⟨j, hj, h1, h2⟩
    · simp only [if_neg hmark, ih]
      constructor
      · rintro ⟨j, hj, h1, h2⟩; exact ⟨j, List.mem_cons_of_mem i hj, h1, h2⟩
      · rintro ⟨j, hj, h1, h2⟩
        rcases List.mem_cons.mp hj with rfl | hj
        · exact absurd h1 hmark
        · exact ⟨j, hj, h1, h2⟩

lemma mem_scan_range {i : Nat} :
    i ∈ List.range' 1 (DQLITE__FORMAT_WAL_NREADER - 1) ↔
      1 ≤ i ∧ i < DQLITE__FORMAT_WAL_NREADER := by
  show i ∈ [1, 2, 3, 4] ↔ _
  constructor
  · intro h; fin_cases h <;> simp [DQLITE__FORMAT_WAL_NREADER]
  · rintro ⟨h1, h2⟩
    simp only [DQLITE__FORMAT_WAL_NREADER] at h2
    have : i = 1 ∨ i = 2 ∨ i = 3 ∨ i = 4 := by omega
    rcases this with rfl | rfl | rfl | rfl <;> simp

/-- C4: the WAL checkpoint hook does nothing below the threshold, is
postponed (with no `cluster.checkpoint` call) whenever some reader slot
`i ≥ 1` with mark strictly below `mxFrame` has its exclusive lock attempt
report busy, invokes `cluster.checkpoint` when every such slot is idle, and
returns `SQLITE_OK` in all cases. -/
theorem maybe_checkpoint_spec :
    (∀ threshold shm pages, pages < threshold →
      dqlite__gateway_maybe_checkpoint threshold shm pages = (SQLITE_OK, false)) ∧
    (∀ threshold shm pages,
      (∃ i, 1 ≤ i ∧ i < DQLITE__FORMAT_WAL_NREADER ∧
        shm.readMarks.getD i 0 < shm.mxFrame ∧ shm.lockBusy.getD i false = true) →
      (dqlite__gateway_maybe_checkpoint threshold shm pages).2 = false) ∧
    (∀ threshold shm pages, threshold ≤ pages →
      (∀ i, 1 ≤ i → i < DQLITE__FORMAT_WAL_NREADER →
        shm.readMarks.getD i 0 < shm.mxFrame → shm.lockBusy.getD i false = false) →
      (dqlite__gateway_maybe_checkpoint threshold shm pages).2 = true) ∧
    (∀ threshold shm pages,
      (dqlite__gateway_maybe_checkpoint threshold shm pages).1 = SQLITE_OK) := by
  refine ⟨?_, ?_, ?_, ?_⟩
  · intro threshold shm pages h
    simp [dqlite__gateway_maybe_checkpoint, h]
  · intro threshold shm pages ⟨i, h1, h2, h3, h4⟩
    unfold dqlite__gateway_maybe_checkpoint
    by_cases hp : pages < threshold
    · simp [hp]
    · have hscan : walScanLocked shm
          (List.range' 1 (DQLITE__FORMAT_WAL_NREADER - 1)) = true :=
        (walScanLocked_eq_true_iff shm _).mpr
          ⟨i, mem_scan_range.mpr ⟨h1, h2⟩, h3, h4⟩
      simp [hp, hscan]
  · intro threshold shm pages hp hidle
    unfold dqlite__gateway_maybe_checkpoint
    have hp' : ¬ pages < threshold := not_lt.mpr hp
    have hscan : walScanLocked shm
        (List.range' 1 (DQLITE__FORMAT_WAL_NREADER - 1)) ≠ true := by
      intro hcontra
      rcases (walScanLocked_eq_true_iff shm _).mp hcontra with ⟨i, hi, h1, h2⟩
      rcases mem_scan_range.mp hi with ⟨ha, hb⟩
      rw [hidle i ha hb h1] at h2
      exact absurd h2 (by decide)
    simp [hp', hscan]
  · intro threshold shm pages
    unfold dqlite__gateway_maybe_checkpoint
    split
    · rfl
    · split <;> rfl

/-- Witness for `maybe_checkpoint_spec` at concrete inputs. -/
theorem maybe_checkpoint_spec_witness :
    dqlite__gateway_maybe_checkpoint 1000
        { mxFrame := 10, readMarks := [0, 5, 10, 10, 10],
          lockBusy := [false, true, false, false, false] } 500 =
      (SQLITE_OK, false) ∧
    (dqlite__gateway_maybe_checkpoint 1000
        { mxFrame := 10, readMarks := [0, 5, 10, 10, 10],
          lockBusy := [false, true, false, false, false] } 2000).2 = false ∧
    (dqlite__gateway_maybe_checkpoint 1000
        { mxFrame := 10, readMarks := [0, 5, 10, 10, 10],
          lockBusy := [false, false, false, false, false] } 2000).2 = true := by
  refine ⟨?_, ?_, ?_⟩
  · exact maybe_checkpoint_spec.1 1000 _ 500 (by decide)
  · exact maybe_checkpoint_spec.2.1 1000 _ 2000 ⟨1, by decide, by decide, by decide, by decide⟩
  · exact maybe_checkpoint_spec.2.2.1 1000 _ 2000 (by decide) (by decide)

/-! ### Frame lemmas: which gateway fields each handler leaves alone -/

lemma frame_leader (env : Env) (g : Gateway) (s t : Slot) :
    ((dqlite__gateway_leader env g s).ctx t).request = (g.ctx t).request ∧
    ((dqlite__gateway_leader env g s).ctx t).stmt = (g.ctx t).stmt ∧
    (dqlite__gateway_leader env g s).heartbeat = g.heartbeat := by
  unfold dqlite__gateway_leader dqlite__gateway_failure
  cases env.leaderAddr <;> cases s <;> cases t <;> exact ⟨rfl, rfl, rfl⟩

lemma frame_client (g : Gateway) (s t : Slot) :
    ((dqlite__gateway_client g s).ctx t).request = (g.ctx t).request ∧
    ((dqlite__gateway_client g s).ctx t).stmt = (g.ctx t).stmt ∧
    (dqlite__gateway_client g s).heartbeat = g.heartbeat := by
  cases s <;> cases t <;> exact ⟨rfl, rfl, rfl⟩

lemma frame_heartbeat (env : Env) (g : Gateway) (s t : Slot) (req : Request) :
    ((dqlite__gateway_heartbeat env g s req).ctx t).request = (g.ctx t).request ∧
    ((dqlite__gateway_heartbeat env g s req).ctx t).stmt = (g.ctx t).stmt ∧
    (dqlite__gateway_heartbeat env g s req).heartbeat =
      (if env.serversRc = SQLITE_OK then req.timestamp else g.heartbeat) := by
  unfold dqlite__gateway_heartbeat dqlite__gateway_failure
  by_cases h : env.serversRc = SQLITE_OK <;>
    simp only [h, ne_eq, not_true_eq_false, not_false_eq_true, if_true, if_false,
      ite_true, ite_false, if_neg, if_pos] <;>
    cases s <;> cases t <;> simp [Gateway.setResponse, Gateway.modifyCtx, Gateway.ctx]

lemma frame_open (env : Env) (g : Gateway) (s t : Slot) (name : String) (flags : Int) :
    ((dqlite__gateway_open env g s name flags).ctx t).request = (g.ctx t).request ∧
    ((dqlite__gateway_open env g s name flags).ctx t).stmt = (g.ctx t).stmt ∧
    (dqlite__gateway_open env g s name flags).heartbeat = g.heartbeat := by
  unfold dqlite__gateway_open dqlite__gateway_failure
  rcases hdb : g.db with _ | db <;> simp only [hdb] <;>
    cases s <;> cases t <;> refine ⟨?_, ?_, ?_⟩ <;> (repeat' split) <;> rfl

lemma frame_prepare (env : Env) (g : Gateway) (s t : Slot) (dbId : Nat) :
    ((dqlite__gateway_prepare env g s dbId).ctx t).request = (g.ctx t).request ∧
    ((dqlite__gateway_prepare env g s dbId).ctx t).stmt = (g.ctx t).stmt ∧
    (dqlite__gateway_prepare env g s dbId).heartbeat = g.heartbeat := by
  unfold dqlite__gateway_prepare barrierFailure noDbFailure dqlite__gateway_failure
  cases s <;> cases t <;> refine ⟨?_, ?_, ?_⟩ <;> (repeat' split) <;> rfl

lemma frame_exec (env : Env) (g : Gateway) (s t : Slot) (dbId stmtId : Nat) :
    ((dqlite__gateway_exec env g s dbId stmtId).ctx t).request = (g.ctx t).request ∧
    ((dqlite__gateway_exec env g s dbId stmtId).ctx t).stmt = (g.ctx t).stmt ∧
    (dqlite__gateway_exec env g s dbId stmtId).heartbeat = g.heartbeat := by
  unfold dqlite__gateway_exec barrierFailure noDbFailure noStmtFailure
    dqlite__gateway_failure
  cases s <;> cases t <;> refine ⟨?_, ?_, ?_⟩ <;> (repeat' split) <;> rfl

lemma frame_query_batch (g : Gateway) (st : Stmt) (s t : Slot) :
    ((dqlite__gateway_query_batch g st s).ctx t).request = (g.ctx t).request ∧
    (dqlite__gateway_query_batch g st s).heartbeat = g.heartbeat := by
  unfold dqlite__gateway_query_batch dqlite__gateway_failure
  cases s <;> cases t <;> refine ⟨?_, ?_⟩ <;> (repeat' split) <;> rfl

lemma frame_query (env : Env) (g : Gateway) (s t : Slot) (dbId stmtId : Nat) :
    ((dqlite__gateway_query env g s dbId stmtId).ctx t).request = (g.ctx t).request ∧
    (dqlite__gateway_query env g s dbId stmtId).heartbeat = g.heartbeat := by
  unfold dqlite__gateway_query barrierFailure noDbFailure noStmtFailure
    dqlite__gateway_failure
  cases s <;> cases t <;> refine ⟨?_, ?_⟩ <;> (repeat' split) <;>
    first
    | rfl
    | exact (frame_query_batch _ _ _ _).1
    | exact (frame_query_batch _ _ _ Slot.s0).2

lemma frame_finalize (env : Env) (g : Gateway) (s t : Slot) (dbId stmtId : Nat) :
    ((dqlite__gateway_finalize env g s dbId stmtId).ctx t).request = (g.ctx t).request ∧
    ((dqlite__gateway_finalize env g s dbId stmtId).ctx t).stmt = (g.ctx t).stmt ∧
    (dqlite__gateway_finalize env g s dbId stmtId).heartbeat = g.heartbeat := by
  unfold dqlite__gateway_finalize barrierFailure noDbFailure noStmtFailure
    dqlite__gateway_failure
  cases s <;> cases t <;> refine ⟨?_, ?_, ?_⟩ <;> (repeat' split) <;> rfl

set_option maxHeartbeats 1600000 in
lemma frame_execSqlLoop (s t : Slot) (preps : List PrepOutcome) :
    ∀ (g : Gateway) (db : DB) (stmt : Option Stmt) (sql : Option String),
      (((execSqlLoop g db s preps stmt sql).g).ctx t).request = (g.ctx t).request ∧
      (((execSqlLoop g db s preps stmt sql).g).ctx t).stmt = (g.ctx t).stmt ∧
      ((execSqlLoop g db s preps stmt sql).g).heartbeat = g.heartbeat := by
  induction preps with
  | nil =>
    intro g db stmt sql
    rw [execSqlLoop.eq_def]
    unfold execSqlFinalizeOut
    cases stmt <;> cases s <;> cases t <;> refine ⟨?_, ?_, ?_⟩ <;>
      (repeat' split) <;> first | rfl | simp_all
  | cons p rest ih =>
    intro g db stmt sql
    rw [execSqlLoop.eq_def]
    unfold execSqlFinalizeOut
    cases s <;> cases t <;> refine ⟨?_, ?_, ?_⟩ <;> (repeat' split) <;>
      first
      | rfl
      | exact (ih _ _ _ _).1
      | exact (ih _ _ _ _).2.1
      | exact (ih _ _ _ _).2.2
      | simp_all [Gateway.setResponse, Gateway.modifyCtx, Gateway.ctx]

lemma frame_exec_sql (env : Env) (g : Gateway) (s t : Slot) (dbId : Nat)
    (sql : Option String) :
    (((dqlite__gateway_exec_sql env g s dbId sql).g).ctx t).request = (g.ctx t).request ∧
    (((dqlite__gateway_exec_sql env g s dbId sql).g).ctx t).stmt = (g.ctx t).stmt ∧
    ((dqlite__gateway_exec_sql env g s dbId sql).g).heartbeat = g.heartbeat := by
  unfold dqlite__gateway_exec_sql barrierFailure noDbFailure dqlite__gateway_failure
  cases s <;> cases t <;> refine ⟨?_, ?_, ?_⟩ <;> (repeat' split) <;>
    first
    | rfl
    | exact (frame_execSqlLoop _ _ env.preps g _ none sql).1
    | exact (frame_execSqlLoop _ _ env.preps g _ none sql).2.1
    | exact (frame_execSqlLoop _ Slot.s0 env.preps g _ none sql).2.2

lemma frame_query_sql (env : Env) (g : Gateway) (s t : Slot) (dbId : Nat) :
    ((dqlite__gateway_query_sql env g s dbId).ctx t).request = (g.ctx t).request ∧
    (dqlite__gateway_query_sql env g s dbId).heartbeat = g.heartbeat := by
  unfold dqlite__gateway_query_sql barrierFailure noDbFailure
    dqlite__gateway_failure
  cases s <;> cases t <;> refine ⟨?_, ?_⟩ <;> (repeat' split) <;>
    first
    | rfl
    | exact (frame_query_batch _ _ _ _).1
    | exact (frame_query_batch _ _ _ Slot.s0).2

lemma frame_interrupt (g : Gateway) (s : Slot) :
    ((dqlite__gateway_interrupt g s).ctx Slot.s1).request = (g.ctx Slot.s1).request ∧
    (dqlite__gateway_interrupt g s).heartbeat = g.heartbeat := by
  cases s <;> exact ⟨rfl, rfl⟩

/-- The dispatch switch never clears its own slot's request pointer (the
modelled interrupt handler clears slot 0, but its own slot is slot 1). -/
lemma dispatch_request_frame (env : Env) (g : Gateway) (req : Request) :
    ((dispatchRequest env g (slotFor req.payload) req).ctx
        (slotFor req.payload)).request =
      (g.ctx (slotFor req.payload)).request := by
  obtain ⟨p, ts⟩ := req
  cases p
  case leader => exact (frame_leader env g Slot.s0 Slot.s0).1
  case client => exact (frame_client g Slot.s0 Slot.s0).1
  case heartbeat => exact (frame_heartbeat env g Slot.s1 Slot.s1 _).1
  case opendb name flags => exact (frame_open env g Slot.s0 Slot.s0 name flags).1
  case prepare dbId sql => exact (frame_prepare env g Slot.s0 Slot.s0 dbId).1
  case exec dbId stmtId => exact (frame_exec env g Slot.s0 Slot.s0 dbId stmtId).1
  case query dbId stmtId => exact (frame_query env g Slot.s0 Slot.s0 dbId stmtId).1
  case finalize dbId stmtId =>
    exact (frame_finalize env g Slot.s0 Slot.s0 dbId stmtId).1
  case execSql dbId sql => exact (frame_exec_sql env g Slot.s0 Slot.s0 dbId sql).1
  case querySql dbId sql => exact (frame_query_sql env g Slot.s0 Slot.s0 dbId).1
  case interrupt => exact (frame_interrupt g Slot.s1).1
  case unknown n =>
    show ((Gateway.setResponse _ Slot.s0 _).ctx Slot.s0).request = _
    rfl

/-- When an accepted request is handled, the request is bound in its
designated slot and stays there when `handle` returns. -/
lemma handle_request_bound (env : Env) (g : Gateway) (req : Request)
    (h : dqlite__gateway_ok_to_accept g req.payload = true) :
    ((dqlite__gateway_handle env g req).g.ctx (slotFor req.payload)).request =
      some req := by
  unfold dqlite__gateway_handle
  rw [if_neg (by simp [h])]
  show ((dispatchRequest env _ _ req).ctx (slotFor req.payload)).request = _
  rw [dispatch_request_frame]
  cases hs : slotFor req.payload <;>
    simp [Gateway.setRequest, Gateway.modifyCtx, Gateway.ctx, hs]

/-- C1: `handle` rejects a request whose designated slot is occupied with
the `PROTOCOL` error and no flush; otherwise it binds the request into its
slot, runs the per-type handler, flushes the slot's response exactly once
and returns 0 — also for unknown opcodes, which render
`FAILURE{ERROR, "invalid request type N"}`. -/
theorem handle_contract (env : Env) (g : Gateway) (req : Request) :
    (dqlite__gateway_ok_to_accept g req.payload = false →
      dqlite__gateway_handle env g req =
        { err := DQLITE_PROTO,
          g := { g with error := "concurrent request limit exceeded" },
          flushes := [] } ∧
      DQLITE_PROTO ≠ 0) ∧
    (dqlite__gateway_ok_to_accept g req.payload = true →
      (dqlite__gateway_handle env g req).err = 0 ∧
      (dqlite__gateway_handle env g req).flushes =
        [((dqlite__gateway_handle env g req).g.ctx (slotFor req.payload)).response] ∧
      ((dqlite__gateway_handle env g req).g.ctx (slotFor req.payload)).request =
        some req) ∧
    (∀ n, req.payload = RequestPayload.unknown n →
      dqlite__gateway_ok_to_accept g req.payload = true →
      (dqlite__gateway_handle env g req).flushes =
        [Response.failure SQLITE_ERROR (s!"invalid request type {n}")] ∧
      (dqlite__gateway_handle env g req).g.ctx0.response =
        Response.failure SQLITE_ERROR (s!"invalid request type {n}")) := by
  refine ⟨?_, ?_, ?_⟩
  · intro h
    refine ⟨?_, by decide⟩
    simp [dqlite__gateway_handle, h]
  · intro h
    refine ⟨?_, ?_, handle_request_bound env g req h⟩
    · simp [dqlite__gateway_handle, h]
    · simp [dqlite__gateway_handle, h]
  · intro n hn h
    obtain ⟨p, ts⟩ := req
    simp only at hn
    subst hn
    constructor <;>
      simp [dqlite__gateway_handle, dispatchRequest, h, slotFor, dqlite__gateway_failure,
        Gateway.setResponse, Gateway.setRequest, Gateway.modifyCtx, Gateway.ctx]

/-- Witness for `handle_contract`: a rejected heartbeat on a busy slot 1,
and an accepted unknown opcode. -/
theorem handle_contract_witness :
    (dqlite__gateway_handle
      { leaderAddr := none, serversRc := 0, serversList := [], barrierRc := 0,
        mallocOk := true, openRc := 0, openErr := "", preps := [] }
      { clientId := 0, error := "",
        ctx0 := { request := none, stmt := none, response := Response.empty },
        ctx1 := { request := some { payload := RequestPayload.heartbeat,
                                    timestamp := 0 },
                  stmt := none, response := Response.empty },
        db := none, heartbeat := 0,
        options := { heartbeatTimeout := 15, checkpointThreshold := 1000 } }
      { payload := RequestPayload.heartbeat, timestamp := 1 }).flushes = [] ∧
    (dqlite__gateway_handle
      { leaderAddr := none, serversRc := 0, serversList := [], barrierRc := 0,
        mallocOk := true, openRc := 0, openErr := "", preps := [] }
      { clientId := 0, error := "",
        ctx0 := { request := none, stmt := none, response := Response.empty },
        ctx1 := { request := none, stmt := none, response := Response.empty },
        db := none, heartbeat := 0,
        options := { heartbeatTimeout := 15, checkpointThreshold := 1000 } }
      { payload := RequestPayload.unknown 42, timestamp := 0 }).flushes =
      [Response.failure SQLITE_ERROR "invalid request type 42"] := by
  constructor
  · exact congrArg HandleOut.flushes
      ((handle_contract _ _ _).1 (by decide)).1
  · exact ((handle_contract _ _
      { payload := RequestPayload.unknown 42, timestamp := 0 }).2.2 42 rfl
      (by decide)).1

/-- C9: an unrecognized opcode is admitted against slot 0 (accepted iff
slot 0 is free), occupies slot 0 — blocking every data-plane request —
until its `FAILURE` response is flushed, and `handle` returns 0 for it. -/
theorem unknown_opcode_occupies_slot0 (env : Env) (g : Gateway) (req : Request)
    (n : Nat)
    (hreq : req.payload = RequestPayload.unknown n)
    (hstmt : g.ctx0.stmt = none) :
    (dqlite__gateway_ok_to_accept g req.payload = true ↔ g.ctx0.request = none) ∧
    (g.ctx0.request = none →
      (dqlite__gateway_handle env g req).err = 0 ∧
      (dqlite__gateway_handle env g req).g.ctx0.request = some req ∧
      (∀ p, slotFor p = Slot.s0 →
        dqlite__gateway_ok_to_accept (dqlite__gateway_handle env g req).g p =
          false) ∧
      (dqlite__gateway_flushed (dqlite__gateway_handle env g req).g
          Slot.s0).1.ctx0.request = none) := by
  obtain ⟨p, ts⟩ := req
  simp only at hreq
  subst hreq
  constructor
  · simp [dqlite__gateway_ok_to_accept, slotFor, Gateway.ctx,
      Option.isNone_iff_eq_none]
  · intro hacc
    have h : dqlite__gateway_ok_to_accept g
        (RequestPayload.unknown n) = true := by
      simp [dqlite__gateway_ok_to_accept, slotFor, Gateway.ctx,
        Option.isNone_iff_eq_none, hacc]
    refine ⟨?_, ?_, ?_, ?_⟩
    · simp [dqlite__gateway_handle, h]
    · simp [dqlite__gateway_handle, dispatchRequest, h, slotFor, dqlite__gateway_failure,
        Gateway.setResponse, Gateway.setRequest, Gateway.modifyCtx, Gateway.ctx]
    · intro p hp
      cases p <;> simp_all [dqlite__gateway_handle, dispatchRequest, h, slotFor,
        dqlite__gateway_ok_to_accept, dqlite__gateway_failure,
        Gateway.setResponse, Gateway.setRequest, Gateway.modifyCtx, Gateway.ctx]
    · simp [dqlite__gateway_handle, dispatchRequest, h, slotFor, dqlite__gateway_failure,
        dqlite__gateway_flushed, dqlite__gateway_query_resume,
        dqlite__gateway_response_reset, hstmt,
        Gateway.setResponse, Gateway.setRequest, Gateway.setStmt,
        Gateway.modifyCtx, Gateway.ctx]

/-- Witness for `unknown_opcode_occupies_slot0`. -/
theorem unknown_opcode_occupies_slot0_witness :
    (dqlite__gateway_handle
      { leaderAddr := none, serversRc := 0, serversList := [], barrierRc := 0,
        mallocOk := true, openRc := 0, openErr := "", preps := [] }
      { clientId := 0, error := "",
        ctx0 := { request := none, stmt := none, response := Response.empty },
        ctx1 := { request := none, stmt := none, response := Response.empty },
        db := none, heartbeat := 0,
        options := { heartbeatTimeout := 15, checkpointThreshold := 1000 } }
      { payload := RequestPayload.unknown 99, timestamp := 0 }).g.ctx0.request =
      some { payload := RequestPayload.unknown 99, timestamp := 0 } :=
  ((unknown_opcode_occupies_slot0 _ _ _ 99 rfl rfl).2 rfl).2.1

/-- C3 (spec-modelled interrupt handler): with a suspended streaming cursor
in slot 0, an accepted `interrupt` request clears slot 0's suspended cursor
and its request pointer, and the response flushed for the interrupt is
`EMPTY`. -/
theorem interrupt_cancels_stream (env : Env) (g : Gateway) (req : Request)
    (st : Stmt)
    (_hstream : g.ctx0.stmt = some st)
    (hacc : g.ctx1.request = none)
    (hreq : req.payload = RequestPayload.interrupt) :
    (dqlite__gateway_handle env g req).err = 0 ∧
    (dqlite__gateway_handle env g req).g.ctx0.stmt = none ∧
    (dqlite__gateway_handle env g req).g.ctx0.request = none ∧
    (dqlite__gateway_handle env g req).flushes = [Response.empty] := by
  obtain ⟨p, ts⟩ := req
  simp only at hreq
  subst hreq
  refine ⟨?_, ?_, ?_, ?_⟩ <;>
    simp [dqlite__gateway_handle, dispatchRequest, dqlite__gateway_ok_to_accept, slotFor, hacc,
      dqlite__gateway_interrupt, Gateway.setResponse, Gateway.setStmt,
      Gateway.setRequest, Gateway.modifyCtx, Gateway.ctx]

/-- Witness for `interrupt_cancels_stream`. -/
theorem interrupt_cancels_stream_witness :
    (dqlite__gateway_handle
      { leaderAddr := none, serversRc := 0, serversList := [], barrierRc := 0,
        mallocOk := true, openRc := 0, openErr := "", preps := [] }
      { clientId := 0, error := "",
        ctx0 := { request := some { payload := RequestPayload.query 0 7,
                                    timestamp := 0 },
                  stmt := some { id := 7, hasCompiled := true, tail := none,
                                 params := 0, bindRc := 0, execRc := 0,
                                 lastInsertId := 0, rowsAffected := 0,
                                 queryRcs := [100], finalizeRc := 0,
                                 error := "" },
                  response := Response.rows RowsEof.part },
        ctx1 := { request := none, stmt := none, response := Response.empty },
        db := none, heartbeat := 0,
        options := { heartbeatTimeout := 15, checkpointThreshold := 1000 } }
      { payload := RequestPayload.interrupt, timestamp := 3 }).flushes =
      [Response.empty] :=
  (interrupt_cancels_stream _ _ _
    { id := 7, hasCompiled := true, tail := none, params := 0, bindRc := 0,
      execRc := 0, lastInsertId := 0, rowsAffected := 0, queryRcs := [100],
      finalizeRc := 0, error := "" } rfl rfl rfl).2.2.2

/-- C7: a second `open` on a gateway that already holds a DB handle renders
`FAILURE{BUSY, "a database for this connection is already open"}` and leaves
the DB handle (its id and statement table included) untouched. -/
theorem open_twice_busy (env : Env) (g : Gateway) (req : Request) (db0 : DB)
    (name : String) (flags : Int)
    (hdb : g.db = some db0)
    (hacc : g.ctx0.request = none)
    (hreq : req.payload = RequestPayload.opendb name flags) :
    (dqlite__gateway_handle env g req).err = 0 ∧
    (dqlite__gateway_handle env g req).g.db = some db0 ∧
    (dqlite__gateway_handle env g req).flushes =
      [Response.failure SQLITE_BUSY
        "a database for this connection is already open"] := by
  obtain ⟨p, ts⟩ := req
  simp only at hreq
  subst hreq
  simp [dqlite__gateway_handle, dispatchRequest, dqlite__gateway_ok_to_accept, slotFor, hacc,
    dqlite__gateway_open, hdb, dqlite__gateway_failure, Gateway.setResponse,
    Gateway.setRequest, Gateway.modifyCtx, Gateway.ctx]

/-- Witness for `open_twice_busy`. -/
theorem open_twice_busy_witness :
    (dqlite__gateway_handle
      { leaderAddr := none, serversRc := 0, serversList := [], barrierRc := 0,
        mallocOk := true, openRc := 0, openErr := "", preps := [] }
      { clientId := 0, error := "",
        ctx0 := { request := none, stmt := none, response := Response.empty },
        ctx1 := { request := none, stmt := none, response := Response.empty },
        db := some { id := 0, stmts := [], error := "" }, heartbeat := 0,
        options := { heartbeatTimeout := 15, checkpointThreshold := 1000 } }
      { payload := RequestPayload.opendb "test" 0, timestamp := 0 }).flushes =
      [Response.failure SQLITE_BUSY
        "a database for this connection is already open"] :=
  (open_twice_busy _ _ _ { id := 0, stmts := [], error := "" } "test" 0
    rfl rfl rfl).2.2

/-- C10: when the underlying SQL open fails on a gateway with no DB, the
handler flushes the engine's failure, resets the gateway's `db` field to
null, and — once the failure response is flushed — a subsequent `open` is
admitted and may succeed. -/
theorem open_failure_resets (env env2 : Env) (g : Gateway) (req req2 : Request)
    (name name2 : String) (flags flags2 : Int)
    (hdb : g.db = none)
    (hacc : g.ctx0.request = none)
    (hstmt : g.ctx0.stmt = none)
    (hreq : req.payload = RequestPayload.opendb name flags)
    (hmalloc : env.mallocOk = true)
    (hfail : env.openRc ≠ 0) :
    (dqlite__gateway_handle env g req).err = 0 ∧
    (dqlite__gateway_handle env g req).g.db = none ∧
    (dqlite__gateway_handle env g req).flushes =
      [Response.failure env.openRc env.openErr] ∧
    (dqlite__gateway_ok_to_accept
        (dqlite__gateway_flushed (dqlite__gateway_handle env g req).g Slot.s0).1
        (RequestPayload.opendb name2 flags2) = true) ∧
    (env2.mallocOk = true → env2.openRc = 0 →
      req2.payload = RequestPayload.opendb name2 flags2 →
      (dqlite__gateway_handle env2
          (dqlite__gateway_flushed (dqlite__gateway_handle env g req).g Slot.s0).1
          req2).g.db = some { id := 0, stmts := [], error := "" } ∧
      (dqlite__gateway_handle env2
          (dqlite__gateway_flushed (dqlite__gateway_handle env g req).g Slot.s0).1
          req2).flushes = [Response.db 0]) := by
  obtain ⟨p, ts⟩ := req
  simp only at hreq
  subst hreq
  refine ⟨?_, ?_, ?_, ?_, ?_⟩
  · simp [dqlite__gateway_handle, dispatchRequest, dqlite__gateway_ok_to_accept, slotFor, hacc,
      dqlite__gateway_open, hdb, hmalloc, hfail, dqlite__gateway_failure,
      Gateway.setResponse, Gateway.setRequest, Gateway.modifyCtx, Gateway.ctx]
  · simp [dqlite__gateway_handle, dispatchRequest, dqlite__gateway_ok_to_accept, slotFor, hacc,
      dqlite__gateway_open, hdb, hmalloc, hfail, dqlite__gateway_failure,
      Gateway.setResponse, Gateway.setRequest, Gateway.modifyCtx, Gateway.ctx]
  · simp [dqlite__gateway_handle, dispatchRequest, dqlite__gateway_ok_to_accept, slotFor, hacc,
      dqlite__gateway_open, hdb, hmalloc, hfail, dqlite__gateway_failure,
      Gateway.setResponse, Gateway.setRequest, Gateway.modifyCtx, Gateway.ctx]
  · simp [dqlite__gateway_handle, dispatchRequest, dqlite__gateway_ok_to_accept, slotFor, hacc,
      dqlite__gateway_open, hdb, hmalloc, hfail, dqlite__gateway_failure,
      dqlite__gateway_flushed, dqlite__gateway_query_resume,
      dqlite__gateway_response_reset, hstmt,
      Gateway.setResponse, Gateway.setRequest, Gateway.setStmt,
      Gateway.modifyCtx, Gateway.ctx]
  · intro hm2 ho2 hreq2
    obtain ⟨p2, ts2⟩ := req2
    simp only at hreq2
    subst hreq2
    constructor <;>
      simp [dqlite__gateway_handle, dispatchRequest, dqlite__gateway_ok_to_accept, slotFor, hacc,
        dqlite__gateway_open, hdb, hmalloc, hfail, hm2, ho2,
        dqlite__gateway_failure, dqlite__gateway_flushed,
        dqlite__gateway_query_resume, dqlite__gateway_response_reset, hstmt,
        Gateway.setResponse, Gateway.setRequest, Gateway.setStmt,
        Gateway.modifyCtx, Gateway.ctx]

/-- Witness for `open_failure_resets`. -/
theorem open_failure_resets_witness :
    (dqlite__gateway_handle
      { leaderAddr := none, serversRc := 0, serversList := [], barrierRc := 0,
        mallocOk := true, openRc := 14, openErr := "unable to open database file",
        preps := [] }
      { clientId := 0, error := "",
        ctx0 := { request := none, stmt := none, response := Response.empty },
        ctx1 := { request := none, stmt := none, response := Response.empty },
        db := none, heartbeat := 0,
        options := { heartbeatTimeout := 15, checkpointThreshold := 1000 } }
      { payload := RequestPayload.opendb "test" 0, timestamp := 0 }).g.db = none :=
  (open_failure_resets _
    { leaderAddr := none, serversRc := 0, serversList := [], barrierRc := 0,
      mallocOk := true, openRc := 0, openErr := "", preps := [] }
    _ _ { payload := RequestPayload.opendb "test" 0, timestamp := 1 }
    "test" "test" 0 0 rfl rfl rfl rfl rfl (by decide)).2.1

/-! ### Heartbeat timestamp behavior (C6) -/

lemma heartbeat_setRequest (g : Gateway) (s : Slot) (v : Option Request) :
    (g.setRequest s v).heartbeat = g.heartbeat := by
  cases s <;> rfl

/-- Exactly one dispatch path writes the heartbeat field: a heartbeat
request whose `cluster.xServers` call returns `SQLITE_OK`. -/
lemma handle_heartbeat_char (env : Env) (g : Gateway) (req : Request) :
    (dqlite__gateway_handle env g req).g.heartbeat =
      (if dqlite__gateway_ok_to_accept g req.payload = true ∧
          req.payload = RequestPayload.heartbeat ∧ env.serversRc = SQLITE_OK
       then req.timestamp else g.heartbeat) := by
  by_cases h : dqlite__gateway_ok_to_accept g req.payload = true
  · unfold dqlite__gateway_handle
    rw [if_neg (by simp [h])]
    obtain ⟨p, ts⟩ := req
    cases p with
    | leader =>
      show (dqlite__gateway_leader env
        (g.setRequest Slot.s0 (some ⟨RequestPayload.leader, ts⟩))
        Slot.s0).heartbeat = _
      rw [(frame_leader _ _ _ Slot.s0).2.2, heartbeat_setRequest]
      simp
    | client c =>
      show g.heartbeat = _
      simp
    | heartbeat =>
      show (dqlite__gateway_heartbeat env
        (g.setRequest Slot.s1 (some ⟨RequestPayload.heartbeat, ts⟩)) Slot.s1
        ⟨RequestPayload.heartbeat, ts⟩).heartbeat = _
      rw [(frame_heartbeat _ _ _ Slot.s1 _).2.2, heartbeat_setRequest]
      by_cases hs : env.serversRc = SQLITE_OK <;> simp [hs, h]
    | opendb name flags =>
      show (dqlite__gateway_open env
        (g.setRequest Slot.s0 (some ⟨RequestPayload.opendb name flags, ts⟩))
        Slot.s0 name flags).heartbeat = _
      rw [(frame_open _ _ _ Slot.s0 name flags).2.2, heartbeat_setRequest]
      simp
    | prepare dbId sql =>
      show (dqlite__gateway_prepare env
        (g.setRequest Slot.s0 (some ⟨RequestPayload.prepare dbId sql, ts⟩))
        Slot.s0 dbId).heartbeat = _
      rw [(frame_prepare _ _ _ Slot.s0 dbId).2.2, heartbeat_setRequest]
      simp
    | exec dbId stmtId =>
      show (dqlite__gateway_exec env
        (g.setRequest Slot.s0 (some ⟨RequestPayload.exec dbId stmtId, ts⟩))
        Slot.s0 dbId stmtId).heartbeat = _
      rw [(frame_exec _ _ _ Slot.s0 dbId stmtId).2.2, heartbeat_setRequest]
      simp
    | query dbId stmtId =>
      show (dqlite__gateway_query env
        (g.setRequest Slot.s0 (some ⟨RequestPayload.query dbId stmtId, ts⟩))
        Slot.s0 dbId stmtId).heartbeat = _
      rw [(frame_query _ _ _ Slot.s0 dbId stmtId).2, heartbeat_setRequest]
      simp
    | finalize dbId stmtId =>
      show (dqlite__gateway_finalize env
        (g.setRequest Slot.s0 (some ⟨RequestPayload.finalize dbId stmtId, ts⟩))
        Slot.s0 dbId stmtId).heartbeat = _
      rw [(frame_finalize _ _ _ Slot.s0 dbId stmtId).2.2, heartbeat_setRequest]
      simp
    | execSql dbId sql =>
      show ((dqlite__gateway_exec_sql env
        (g.setRequest Slot.s0 (some ⟨RequestPayload.execSql dbId sql, ts⟩))
        Slot.s0 dbId sql).g).heartbeat = _
      rw [(frame_exec_sql _ _ _ Slot.s0 dbId sql).2.2, heartbeat_setRequest]
      simp
    | querySql dbId sql =>
      show (dqlite__gateway_query_sql env
        (g.setRequest Slot.s0 (some ⟨RequestPayload.querySql dbId sql, ts⟩))
        Slot.s0 dbId).heartbeat = _
      rw [(frame_query_sql _ _ _ Slot.s0 dbId).2, heartbeat_setRequest]
      simp
    | interrupt =>
      show g.heartbeat = _
      simp
    | unknown n =>
      show g.heartbeat = _
      simp
  · unfold dqlite__gateway_handle
    rw [if_pos (by simp [h])]
    simp [h]

lemma heartbeat_flushed (g : Gateway) (s : Slot) :
    (dqlite__gateway_flushed g s).1.heartbeat = g.heartbeat := by
  unfold dqlite__gateway_flushed dqlite__gateway_query_resume
    dqlite__gateway_response_reset
  rcases hst : ((g.setResponse s (g.ctx s).response).ctx s).stmt with _ | st <;>
    simp only [hst]
  · cases s <;> rfl
  · exact (frame_query_batch _ st s Slot.s0).2.trans (by cases s <;> rfl)

lemma step_heartbeat (g : Gateway) (a : GAction) :
    (gatewayStep g a).heartbeat = g.heartbeat ∨
    (∃ ts, actionTimestamp a = some ts ∧ (gatewayStep g a).heartbeat = ts) := by
  cases a with
  | hflushed s => exact Or.inl (heartbeat_flushed g s)
  | hreq e r =>
    rw [show gatewayStep g (GAction.hreq e r) = (dqlite__gateway_handle e g r).g
      from rfl, handle_heartbeat_char]
    split
    · exact Or.inr ⟨r.timestamp, rfl, rfl⟩
    · exact Or.inl rfl

lemma chain_le_head {a b : Nat} {l : List Nat} (hab : a ≤ b)
    (h : List.Chain' (fun x y => x ≤ y) (b :: l)) :
    List.Chain' (fun x y => x ≤ y) (a :: l) := by
  cases l with
  | nil => simp
  | cons c l =>
    rcases List.chain'_cons.mp h with ⟨hbc, hcl⟩
    exact List.chain'_cons.mpr ⟨le_trans hab hbc, hcl⟩

/-- When the timestamps carried by a run's requests are non-decreasing and
start at or above the gateway's heartbeat, the observed heartbeat values
form a non-decreasing sequence. -/
lemma heartbeatTrace_chain : ∀ (acts : List GAction) (g : Gateway),
    List.Chain' (fun x y => x ≤ y)
      (g.heartbeat :: acts.filterMap actionTimestamp) →
    List.Chain' (fun x y => x ≤ y) (g.heartbeat :: heartbeatTrace g acts) := by
  intro acts
  induction acts with
  | nil => intro g _; simp [heartbeatTrace]
  | cons a rest ih =>
    intro g h
    rw [show heartbeatTrace g (a :: rest) =
      (gatewayStep g a).heartbeat :: heartbeatTrace (gatewayStep g a) rest
      from rfl]
    rcases ha : actionTimestamp a with _ | ts
    · rcases step_heartbeat g a with hb | ⟨ts, hts, -⟩
      · simp only [List.filterMap_cons, ha] at h
        have h' : List.Chain' (fun x y => x ≤ y)
            ((gatewayStep g a).heartbeat :: rest.filterMap actionTimestamp) := by
          rw [hb]; exact h
        exact List.chain'_cons.mpr ⟨by rw [hb], ih _ h'⟩
      · rw [ha] at hts; cases hts
    · simp only [List.filterMap_cons, ha] at h
      rcases List.chain'_cons.mp h with ⟨hle, hrest⟩
      have hb' : (gatewayStep g a).heartbeat = g.heartbeat ∨
          (gatewayStep g a).heartbeat = ts := by
        rcases step_heartbeat g a with hb | ⟨ts', hts', hb⟩
        · exact Or.inl hb
        · rw [ha] at hts'; cases hts'; exact Or.inr hb
      have h1 : g.heartbeat ≤ (gatewayStep g a).heartbeat := by
        rcases hb' with hb | hb <;> rw [hb]
        exact hle
      have h2 : (gatewayStep g a).heartbeat ≤ ts := by
        rcases hb' with hb | hb <;> rw [hb]
        exact hle
      exact List.chain'_cons.mpr ⟨h1, ih _ (chain_le_head h2 hrest)⟩

/-- Counterexample to C6 as stated: a gateway whose successful heartbeats
carry decreasing timestamps sees its heartbeat go 5, 5, 3 — not monotone. -/
theorem heartbeat_monotone_counterexample :
    heartbeatTrace
      { clientId := 0, error := "",
        ctx0 := { request := none, stmt := none, response := Response.empty },
        ctx1 := { request := none, stmt := none, response := Response.empty },
        db := none, heartbeat := 0,
        options := { heartbeatTimeout := 15, checkpointThreshold := 1000 } }
      [GAction.hreq
        { leaderAddr := none, serversRc := 0, serversList := [],
          barrierRc := 0, mallocOk := true, openRc := 0, openErr := "",
          preps := [] }
        { payload := RequestPayload.heartbeat, timestamp := 5 },
       GAction.hflushed Slot.s1,
       GAction.hreq
        { leaderAddr := none, serversRc := 0, serversList := [],
          barrierRc := 0, mallocOk := true, openRc := 0, openErr := "",
          preps := [] }
        { payload := RequestPayload.heartbeat, timestamp := 3 }] = [5, 5, 3] ∧
    ¬ List.Chain' (fun x y => x ≤ y) [5, 5, 3] := by
  constructor
  · rfl
  · intro hch
    have h53 := (List.chain'_cons.mp (List.chain'_cons.mp hch).2).1
    omega

/-- C6 (amended): the heartbeat is updated to the request's timestamp
exactly when an accepted heartbeat request succeeds (`cluster.xServers`
returns `SQLITE_OK`) and is otherwise unchanged — `flushed` never changes
it — and, provided the run's request timestamps are non-decreasing and at
least the initial heartbeat, the gateway's heartbeat timestamp is monotone
non-decreasing along any sequence of events. -/
theorem heartbeat_monotone_amended :
    (∀ (env : Env) (g : Gateway) (req : Request),
      (dqlite__gateway_handle env g req).g.heartbeat =
        (if dqlite__gateway_ok_to_accept g req.payload = true ∧
            req.payload = RequestPayload.heartbeat ∧
            env.serversRc = SQLITE_OK
         then req.timestamp else g.heartbeat)) ∧
    (∀ (g : Gateway) (s : Slot),
      (dqlite__gateway_flushed g s).1.heartbeat = g.heartbeat) ∧
    (∀ (acts : List GAction) (g : Gateway),
      List.Chain' (fun x y => x ≤ y)
        (g.heartbeat :: acts.filterMap actionTimestamp) →
      List.Chain' (fun x y => x ≤ y) (g.heartbeat :: heartbeatTrace g acts)) :=
  ⟨handle_heartbeat_char, heartbeat_flushed, heartbeatTrace_chain⟩

/-- Witness for `heartbeat_monotone_amended` at a concrete run. -/
theorem heartbeat_monotone_amended_witness :
    List.Chain' (fun x y => x ≤ y)
      (0 :: heartbeatTrace
        { clientId := 0, error := "",
          ctx0 := { request := none, stmt := none, response := Response.empty },
          ctx1 := { request := none, stmt := none, response := Response.empty },
          db := none, heartbeat := 0,
          options := { heartbeatTimeout := 15, checkpointThreshold := 1000 } }
        [GAction.hreq
          { leaderAddr := none, serversRc := 0, serversList := [],
            barrierRc := 0, mallocOk := true, openRc := 0, openErr := "",
            preps := [] }
          { payload := RequestPayload.heartbeat, timestamp := 4 },
         GAction.hflushed Slot.s1,
         GAction.hreq
          { leaderAddr := none, serversRc := 0, serversList := [],
            barrierRc := 0, mallocOk := true, openRc := 0, openErr := "",
            preps := [] }
          { payload := RequestPayload.heartbeat, timestamp := 6 }]) :=
  heartbeat_monotone_amended.2.2
    [GAction.hreq
      { leaderAddr := none, serversRc := 0, serversList := [],
        barrierRc := 0, mallocOk := true, openRc := 0, openErr := "",
        preps := [] }
      { payload := RequestPayload.heartbeat, timestamp := 4 },
     GAction.hflushed Slot.s1,
     GAction.hreq
      { leaderAddr := none, serversRc := 0, serversList := [],
        barrierRc := 0, mallocOk := true, openRc := 0, openErr := "",
        preps := [] }
      { payload := RequestPayload.heartbeat, timestamp := 6 }]
    { clientId := 0, error := "",
      ctx0 := { request := none, stmt := none, response := Response.empty },
      ctx1 := { request := none, stmt := none, response := Response.empty },
      db := none, heartbeat := 0,
      options := { heartbeatTimeout := 15, checkpointThreshold := 1000 } }
    (by
      show List.Chain' (fun x y => x ≤ y) (0 :: [4, 6])
      exact List.chain'_cons.mpr ⟨by omega,
        List.chain'_cons.mpr ⟨by omega, List.chain'_singleton _⟩⟩)

/-! ### `exec_sql` loop exits (C5, C8) -/

/-- The `out:` label never writes a response (finalize errors are swallowed)
and records the finalize of the current statement (possibly NULL). -/
lemma execSqlFinalizeOut_response (g : Gateway) (db : DB) (s : Slot)
    (stmt : Option Stmt) (t : Slot) :
    ((execSqlFinalizeOut g db s stmt).g.ctx t).response = (g.ctx t).response ∧
    (execSqlFinalizeOut g db s stmt).finalized = some (stmt.map Stmt.id) := by
  cases stmt <;> exact ⟨by cases t <;> rfl, rfl⟩

/-- A compile failure terminates the loop with a `FAILURE` response and no
finalize. -/
lemma execSqlLoop_compile_err (g : Gateway) (db : DB) (s : Slot) (rc : Int)
    (e : String) (rest : List PrepOutcome) (stmt : Option Stmt)
    (sql : Option String) (h1 : sql ≠ none) (h2 : sql ≠ some "") :
    ((execSqlLoop g db s (PrepOutcome.failure rc e :: rest) stmt sql).g.ctx
        s).response = Response.failure rc e ∧
    (execSqlLoop g db s (PrepOutcome.failure rc e :: rest) stmt sql).finalized
      = none := by
  rw [execSqlLoop.eq_def, if_pos (⟨h1, h2⟩ : sql ≠ none ∧ sql ≠ some "")]
  cases s <;> exact ⟨rfl, rfl⟩

/-- A bind failure terminates the loop with a `FAILURE` response and no
finalize — the just-prepared statement is left unfinalized. -/
lemma execSqlLoop_bind_err (g : Gateway) (db : DB) (s : Slot) (st : Stmt)
    (rest : List PrepOutcome) (stmt : Option Stmt) (sql : Option String)
    (h1 : sql ≠ none) (h2 : sql ≠ some "")
    (hc : st.hasCompiled = true) (hb : st.bindRc ≠ SQLITE_OK) :
    ((execSqlLoop g db s (PrepOutcome.success st :: rest) stmt sql).g.ctx
        s).response = Response.failure st.bindRc st.error ∧
    (execSqlLoop g db s (PrepOutcome.success st :: rest) stmt sql).finalized
      = none := by
  rw [execSqlLoop.eq_def, if_pos (⟨h1, h2⟩ : sql ≠ none ∧ sql ≠ some "")]
  refine ⟨?_, ?_⟩ <;> cases s <;> (repeat' split) <;>
    simp_all [Gateway.setResponse, Gateway.modifyCtx, Gateway.ctx,
      dqlite__gateway_failure]

/-- An exec failure terminates the loop with a `FAILURE` response, and the
failing statement is finalized at `out:`. -/
lemma execSqlLoop_exec_err (g : Gateway) (db : DB) (s : Slot) (st : Stmt)
    (rest : List PrepOutcome) (stmt : Option Stmt) (sql : Option String)
    (h1 : sql ≠ none) (h2 : sql ≠ some "")
    (hc : st.hasCompiled = true) (hb : st.bindRc = SQLITE_OK)
    (he : st.execRc ≠ SQLITE_OK) :
    ((execSqlLoop g db s (PrepOutcome.success st :: rest) stmt sql).g.ctx
        s).response = Response.failure st.execRc st.error ∧
    (execSqlLoop g db s (PrepOutcome.success st :: rest) stmt sql).finalized
      = some (some st.id) := by
  rw [execSqlLoop.eq_def, if_pos (⟨h1, h2⟩ : sql ≠ none ∧ sql ≠ some "")]
  refine ⟨?_, ?_⟩ <;> cases s <;> (repeat' split) <;>
    simp_all [Gateway.setResponse, Gateway.modifyCtx, Gateway.ctx,
      dqlite__gateway_failure, execSqlFinalizeOut]

/-- A compile that produced no executable statement (empty tail) stops the
loop: the statement is finalized at `out:` and no response is written. -/
lemma execSqlLoop_empty_stmt (g : Gateway) (db : DB) (s : Slot) (st : Stmt)
    (rest : List PrepOutcome) (stmt : Option Stmt) (sql : Option String)
    (h1 : sql ≠ none) (h2 : sql ≠ some "")
    (hc : st.hasCompiled = false) :
    (execSqlLoop g db s (PrepOutcome.success st :: rest) stmt sql).finalized
      = some (some st.id) ∧
    (∀ t, ((execSqlLoop g db s (PrepOutcome.success st :: rest) stmt
        sql).g.ctx t).response = (g.ctx t).response) := by
  rw [execSqlLoop.eq_def, if_pos (⟨h1, h2⟩ : sql ≠ none ∧ sql ≠ some "")]
  constructor
  · (repeat' split) <;> simp_all [execSqlFinalizeOut]
  · intro t
    (repeat' split) <;> cases s <;> cases t <;>
      simp_all [execSqlFinalizeOut, Gateway.setResponse, Gateway.modifyCtx,
        Gateway.ctx]

/-- When the residual text is NULL or empty the loop body never runs: the
current statement (possibly NULL) is finalized and no response is
written. -/
lemma execSqlLoop_exit (g : Gateway) (db : DB) (s : Slot)
    (preps : List PrepOutcome) (stmt : Option Stmt) (sql : Option String)
    (h : sql = none ∨ sql = some "") :
    (execSqlLoop g db s preps stmt sql).finalized = some (stmt.map Stmt.id) ∧
    (∀ t, ((execSqlLoop g db s preps stmt sql).g.ctx t).response =
      (g.ctx t).response) := by
  rw [execSqlLoop.eq_def, if_neg (by rcases h with rfl | rfl <;> simp)]
  exact ⟨(execSqlFinalizeOut_response g db s stmt Slot.s0).2,
    fun t => (execSqlFinalizeOut_response g db s stmt t).1⟩

/-- Counterexample to C5 as stated: a bind error ends the loop with a
`FAILURE` response, but the just-prepared statement is NOT finalized
(`dqlite__gateway_exec_sql` returns without reaching `out:`, so
`finalized = none`). -/
theorem exec_sql_bind_err_counterexample :
    ((dqlite__gateway_exec_sql
      { leaderAddr := none, serversRc := 0, serversList := [], barrierRc := 0,
        mallocOk := true, openRc := 0, openErr := "",
        preps := [PrepOutcome.success
          { id := 3, hasCompiled := true, tail := some (""), params := 1,
            bindRc := 5, execRc := 0, lastInsertId := 0, rowsAffected := 0,
            queryRcs := [], finalizeRc := 0, error := "boom" }] }
      { clientId := 0, error := "",
        ctx0 := { request := none, stmt := none, response := Response.empty },
        ctx1 := { request := none, stmt := none, response := Response.empty },
        db := some { id := 0, stmts := [], error := "" }, heartbeat := 0,
        options := { heartbeatTimeout := 15, checkpointThreshold := 1000 } }
      Slot.s0 0 (some ("UPDATE t SET x = ?"))).g.ctx0.response =
        Response.failure 5 "boom") ∧
    (dqlite__gateway_exec_sql
      { leaderAddr := none, serversRc := 0, serversList := [], barrierRc := 0,
        mallocOk := true, openRc := 0, openErr := "",
        preps := [PrepOutcome.success
          { id := 3, hasCompiled := true, tail := some (""), params := 1,
            bindRc := 5, execRc := 0, lastInsertId := 0, rowsAffected := 0,
            queryRcs := [], finalizeRc := 0, error := "boom" }] }
      { clientId := 0, error := "",
        ctx0 := { request := none, stmt := none, response := Response.empty },
        ctx1 := { request := none, stmt := none, response := Response.empty },
        db := some { id := 0, stmts := [], error := "" }, heartbeat := 0,
        options := { heartbeatTimeout := 15, checkpointThreshold := 1000 } }
      Slot.s0 0 (some ("UPDATE t SET x = ?"))).finalized = none :=
  ⟨rfl, rfl⟩

/-- C5 (amended): a compile, bind, or exec error terminates the
multi-statement loop with a `FAILURE` response; the final prepared
statement is finalized before the handler returns when the loop exits
normally and when execution fails (with finalize outcomes swallowed — the
`out:` label never writes a response) — but on compile and bind errors the
handler returns early without finalizing. -/
theorem exec_sql_error_finalize_amended :
    (∀ (g : Gateway) (db : DB) (s : Slot) (rc : Int) (e : String)
       (rest : List PrepOutcome) (stmt : Option Stmt) (sql : Option String),
      sql ≠ none → sql ≠ some "" →
      ((execSqlLoop g db s (PrepOutcome.failure rc e :: rest) stmt sql).g.ctx
          s).response = Response.failure rc e ∧
      (execSqlLoop g db s (PrepOutcome.failure rc e :: rest) stmt
          sql).finalized = none) ∧
    (∀ (g : Gateway) (db : DB) (s : Slot) (st : Stmt)
       (rest : List PrepOutcome) (stmt : Option Stmt) (sql : Option String),
      sql ≠ none → sql ≠ some "" →
      st.hasCompiled = true → st.bindRc ≠ SQLITE_OK →
      ((execSqlLoop g db s (PrepOutcome.success st :: rest) stmt sql).g.ctx
          s).response = Response.failure st.bindRc st.error ∧
      (execSqlLoop g db s (PrepOutcome.success st :: rest) stmt
          sql).finalized = none) ∧
    (∀ (g : Gateway) (db : DB) (s : Slot) (st : Stmt)
       (rest : List PrepOutcome) (stmt : Option Stmt) (sql : Option String),
      sql ≠ none → sql ≠ some "" →
      st.hasCompiled = true → st.bindRc = SQLITE_OK →
      st.execRc ≠ SQLITE_OK →
      ((execSqlLoop g db s (PrepOutcome.success st :: rest) stmt sql).g.ctx
          s).response = Response.failure st.execRc st.error ∧
      (execSqlLoop g db s (PrepOutcome.success st :: rest) stmt
          sql).finalized = some (some st.id)) ∧
    (∀ (g : Gateway) (db : DB) (s : Slot) (preps : List PrepOutcome)
       (stmt : Option Stmt) (sql : Option String),
      sql = none ∨ sql = some "" →
      (execSqlLoop g db s preps stmt sql).finalized =
        some (stmt.map Stmt.id)) ∧
    (∀ (g : Gateway) (db : DB) (s : Slot) (stmt : Option Stmt) (t : Slot),
      ((execSqlFinalizeOut g db s stmt).g.ctx t).response =
        (g.ctx t).response) :=
  ⟨execSqlLoop_compile_err, execSqlLoop_bind_err, execSqlLoop_exec_err,
   fun g db s preps stmt sql h => (execSqlLoop_exit g db s preps stmt sql h).1,
   fun g db s stmt t => (execSqlFinalizeOut_response g db s stmt t).1⟩

/-- Witness for `exec_sql_error_finalize_amended` at concrete inputs. -/
theorem exec_sql_error_finalize_amended_witness :
    ((execSqlLoop
      { clientId := 0, error := "",
        ctx0 := { request := none, stmt := none, response := Response.empty },
        ctx1 := { request := none, stmt := none, response := Response.empty },
        db := some { id := 0, stmts := [], error := "" }, heartbeat := 0,
        options := { heartbeatTimeout := 15, checkpointThreshold := 1000 } }
      { id := 0, stmts := [], error := "" } Slot.s0
      [PrepOutcome.failure 1 "syntax error"] none (some ("BAD SQL"))).g.ctx
        Slot.s0).response = Response.failure 1 "syntax error" ∧
    (execSqlLoop
      { clientId := 0, error := "",
        ctx0 := { request := none, stmt := none, response := Response.empty },
        ctx1 := { request := none, stmt := none, response := Response.empty },
        db := some { id := 0, stmts := [], error := "" }, heartbeat := 0,
        options := { heartbeatTimeout := 15, checkpointThreshold := 1000 } }
      { id := 0, stmts := [], error := "" } Slot.s0
      [PrepOutcome.success
        { id := 4, hasCompiled := true, tail := some (""), params := 0,
          bindRc := 0, execRc := 19, lastInsertId := 0, rowsAffected := 0,
          queryRcs := [], finalizeRc := 0, error := "constraint failed" }]
      none (some ("INSERT INTO t VALUES(1)"))).finalized = some (some 4) := by
  constructor
  · exact (exec_sql_error_finalize_amended.1 _ _ Slot.s0 1 "syntax error" []
      none (some ("BAD SQL")) (by decide) (by decide)).1
  · exact (exec_sql_error_finalize_amended.2.2.1 _ _ Slot.s0
      { id := 4, hasCompiled := true, tail := some (""), params := 0,
        bindRc := 0, execRc := 19, lastInsertId := 0, rowsAffected := 0,
        queryRcs := [], finalizeRc := 0, error := "constraint failed" } []
      none (some ("INSERT INTO t VALUES(1)")) (by decide) (by decide) rfl rfl
      (by decide)).2

/-- On a gateway whose DB lookup succeeds, an `exec_sql` whose first
compile yields no executable statement finalizes that statement and leaves
every slot's response buffer untouched. -/
lemma exec_sql_empty_stmt_general (env : Env) (gx : Gateway) (dbId : Nat)
    (sql : String) (st : Stmt) (db : DB) (rest : List PrepOutcome)
    (hdb : gx.db = some db) (hid : db.id = dbId) (hbar : env.barrierRc = 0)
    (hpreps : env.preps = PrepOutcome.success st :: rest)
    (hc : st.hasCompiled = false) (hne : sql ≠ "") :
    (dqlite__gateway_exec_sql env gx Slot.s0 dbId (some sql)).finalized =
      some (some st.id) ∧
    (∀ t, ((dqlite__gateway_exec_sql env gx Slot.s0 dbId
        (some sql)).g.ctx t).response = (gx.ctx t).response) := by
  unfold dqlite__gateway_exec_sql
  rw [if_neg (by simp [hbar])]
  simp only [hdb]
  rw [if_neg (by simp [hid]), hpreps]
  exact ⟨(execSqlLoop_empty_stmt gx db Slot.s0 st rest none (some sql)
      (by simp) (by simp [hne]) hc).1,
    (execSqlLoop_empty_stmt gx db Slot.s0 st rest none (some sql)
      (by simp) (by simp [hne]) hc).2⟩

/-- C8: an `exec_sql` whose text compiles to no executable statement exits
cleanly — the loop stops without writing a failure, the statement is
finalized, and `handle` flushes exactly one (unchanged) response and
returns 0.  For empty text the loop body never runs and the (NULL)
statement argument is still passed to `dqlite__db_finalize`. -/
theorem exec_sql_empty_tail_clean (env : Env) (g : Gateway) (req : Request)
    (dbId : Nat) (sql : String) (st : Stmt) (db : DB)
    (rest : List PrepOutcome)
    (hacc : g.ctx0.request = none)
    (hreq : req.payload = RequestPayload.execSql dbId (some sql))
    (hbar : env.barrierRc = 0)
    (hdb : g.db = some db) (hid : db.id = dbId)
    (hpreps : env.preps = PrepOutcome.success st :: rest)
    (hc : st.hasCompiled = false)
    (hne : sql ≠ "") :
    (dqlite__gateway_exec_sql env g Slot.s0 dbId (some sql)).finalized =
      some (some st.id) ∧
    (dqlite__gateway_exec_sql env g Slot.s0 dbId
        (some sql)).g.ctx0.response = g.ctx0.response ∧
    (dqlite__gateway_handle env g req).err = 0 ∧
    (dqlite__gateway_handle env g req).flushes = [g.ctx0.response] ∧
    (∀ (preps2 : List PrepOutcome) (stmt2 : Option Stmt),
      (execSqlLoop g db Slot.s0 preps2 stmt2 (some "")).finalized =
        some (stmt2.map Stmt.id)) := by
  obtain ⟨p, ts⟩ := req
  simp only at hreq
  subst hreq
  have h : dqlite__gateway_ok_to_accept g
      (RequestPayload.execSql dbId (some sql)) = true := by
    simp [dqlite__gateway_ok_to_accept, slotFor, Gateway.ctx,
      Option.isNone_iff_eq_none, hacc]
  refine ⟨(exec_sql_empty_stmt_general env g dbId sql st db rest hdb hid hbar
      hpreps hc hne).1,
    (exec_sql_empty_stmt_general env g dbId sql st db rest hdb hid hbar
      hpreps hc hne).2 Slot.s0, ?_, ?_, ?_⟩
  · unfold dqlite__gateway_handle
    rw [if_neg (by simp [h])]
  · unfold dqlite__gateway_handle
    rw [if_neg (by simp [h])]
    show [((dqlite__gateway_exec_sql env
      (g.setRequest Slot.s0
        (some ⟨RequestPayload.execSql dbId (some sql), ts⟩)) Slot.s0 dbId
      (some sql)).g.ctx Slot.s0).response] = _
    rw [(exec_sql_empty_stmt_general env
      (g.setRequest Slot.s0
        (some ⟨RequestPayload.execSql dbId (some sql), ts⟩)) dbId sql st db
      rest (by rw [show (g.setRequest Slot.s0
        (some ⟨RequestPayload.execSql dbId (some sql), ts⟩)).db = g.db
        from rfl, hdb]) hid hbar hpreps hc hne).2 Slot.s0]
    rfl
  · intro preps2 stmt2
    exact (execSqlLoop_exit g db Slot.s0 preps2 stmt2 (some "")
      (Or.inr rfl)).1

/-- Witness for `exec_sql_empty_tail_clean`. -/
theorem exec_sql_empty_tail_clean_witness :
    (dqlite__gateway_exec_sql
      { leaderAddr := none, serversRc := 0, serversList := [], barrierRc := 0,
        mallocOk := true, openRc := 0, openErr := "",
        preps := [PrepOutcome.success
          { id := 9, hasCompiled := false, tail := some (""), params := 0,
            bindRc := 0, execRc := 0, lastInsertId := 0, rowsAffected := 0,
            queryRcs := [], finalizeRc := 0, error := "" }] }
      { clientId := 0, error := "",
        ctx0 := { request := none, stmt := none, response := Response.empty },
        ctx1 := { request := none, stmt := none, response := Response.empty },
        db := some { id := 0, stmts := [], error := "" }, heartbeat := 0,
        options := { heartbeatTimeout := 15, checkpointThreshold := 1000 } }
      Slot.s0 0 (some (" -- comment only"))).finalized = some (some 9) :=
  (exec_sql_empty_tail_clean
    { leaderAddr := none, serversRc := 0, serversList := [], barrierRc := 0,
      mallocOk := true, openRc := 0, openErr := "",
      preps := [PrepOutcome.success
        { id := 9, hasCompiled := false, tail := some (""), params := 0,
          bindRc := 0, execRc := 0, lastInsertId := 0, rowsAffected := 0,
          queryRcs := [], finalizeRc := 0, error := "" }] }
    { clientId := 0, error := "",
      ctx0 := { request := none, stmt := none, response := Response.empty },
      ctx1 := { request := none, stmt := none, response := Response.empty },
      db := some { id := 0, stmts := [], error := "" }, heartbeat := 0,
      options := { heartbeatTimeout := 15, checkpointThreshold := 1000 } }
    { payload := RequestPayload.execSql 0 (some (" -- comment only")),
      timestamp := 0 }
    0 " -- comment only"
    { id := 9, hasCompiled := false, tail := some (""), params := 0,
      bindRc := 0, execRc := 0, lastInsertId := 0, rowsAffected := 0,
      queryRcs := [], finalizeRc := 0, error := "" }
    { id := 0, stmts := [], error := "" } []
    rfl rfl rfl rfl rfl rfl rfl (by decide)).1

/-! ### Streaming protocol (C2) -/

@[simp] lemma ctx_setResponse_self (g : Gateway) (s : Slot) (r : Response) :
    (g.setResponse s r).ctx s = { g.ctx s with response := r } := by
  cases s <;> rfl

@[simp] lemma ctx_setStmt_self (g : Gateway) (s : Slot) (v : Option Stmt) :
    (g.setStmt s v).ctx s = { g.ctx s with stmt := v } := by
  cases s <;> rfl

@[simp] lemma ctx_setRequest_self (g : Gateway) (s : Slot) (v : Option Request) :
    (g.setRequest s v).ctx s = { g.ctx s with request := v } := by
  cases s <;> rfl

/-- `query_batch` on a step that yields `SQLITE_ROW`. -/
lemma query_batch_eq_row (g : Gateway) (s : Slot) (st : Stmt)
    (h : (dqlite__stmt_query st).1 = SQLITE_ROW) :
    dqlite__gateway_query_batch g st s =
      (g.setResponse s (Response.rows RowsEof.part)).setStmt s
        (some (dqlite__stmt_query st).2) := by
  unfold dqlite__gateway_query_batch
  rw [if_neg (fun hcon => hcon.1 h), if_pos h]

/-- `query_batch` on a step that yields `SQLITE_DONE`. -/
lemma query_batch_eq_done (g : Gateway) (s : Slot) (st : Stmt)
    (h : (dqlite__stmt_query st).1 = SQLITE_DONE) :
    dqlite__gateway_query_batch g st s =
      (g.setResponse s (Response.rows RowsEof.done)).setStmt s none := by
  unfold dqlite__gateway_query_batch
  rw [if_neg (fun hcon => hcon.2 h), if_neg (by rw [h]; decide)]

/-- `query_batch` on a step that yields any other code. -/
lemma query_batch_eq_fail (g : Gateway) (s : Slot) (st : Stmt)
    (h1 : (dqlite__stmt_query st).1 ≠ SQLITE_ROW)
    (h2 : (dqlite__stmt_query st).1 ≠ SQLITE_DONE) :
    dqlite__gateway_query_batch g st s =
      (dqlite__gateway_failure { g with error := st.error } s
        (dqlite__stmt_query st).1).setStmt s none := by
  unfold dqlite__gateway_query_batch
  rw [if_pos ⟨h1, h2⟩]

/-- `flushed` on a slot with a suspended cursor: one more batch, one more
flush (the response reset frees heap strings only, and the response buffer
re-written with its own value is the identity). -/
lemma flushed_stream (g : Gateway) (s : Slot) (st : Stmt)
    (hst : (g.ctx s).stmt = some st) :
    dqlite__gateway_flushed g s =
      (dqlite__gateway_query_batch g st s,
       [((dqlite__gateway_query_batch g st s).ctx s).response]) := by
  unfold dqlite__gateway_flushed dqlite__gateway_query_resume
    dqlite__gateway_response_reset
  have h2 : ((g.setResponse s ((g.ctx s).response)).ctx s).stmt = some st := by
    simp [hst]
  have heta : g.setResponse s ((g.ctx s).response) = g := by
    cases s <;> rfl
  simp only [h2, heta, hst]

/-- `flushed` on a slot with no suspended cursor clears its request. -/
lemma flushed_idle (g : Gateway) (s : Slot)
    (hst : (g.ctx s).stmt = none) :
    dqlite__gateway_flushed g s = (g.setRequest s none, []) := by
  unfold dqlite__gateway_flushed dqlite__gateway_query_resume
    dqlite__gateway_response_reset
  have h2 : ((g.setResponse s ((g.ctx s).response)).ctx s).stmt = none := by
    simp [hst]
  have heta : g.setResponse s ((g.ctx s).response) = g := by
    cases s <;> rfl
  simp only [h2, heta, hst]

lemma gatewayDrain_succ_stream (fuel : Nat) (g : Gateway) (s : Slot) (st : Stmt)
    (hst : (g.ctx s).stmt = some st) :
    gatewayDrain (fuel + 1) g s =
      ((gatewayDrain fuel (dqlite__gateway_query_batch g st s) s).1,
       ((dqlite__gateway_query_batch g st s).ctx s).response ::
         (gatewayDrain fuel (dqlite__gateway_query_batch g st s) s).2) := by
  rw [gatewayDrain]
  simp only [flushed_stream g s st hst]
  rfl

lemma gatewayDrain_succ_idle (fuel : Nat) (g : Gateway) (s : Slot)
    (hst : (g.ctx s).stmt = none) :
    gatewayDrain (fuel + 1) g s = (g.setRequest s none, []) := by
  rw [gatewayDrain]
  simp only [flushed_idle g s hst]

/-- Driving `flushed` on a slot holding a suspended cursor produces exactly
the cursor's stream trace, then clears the cursor and frees the slot. -/
lemma gatewayDrain_stream (s : Slot) : ∀ (rcs : List Int) (st : Stmt)
    (g : Gateway) (fuel : Nat),
    st.queryRcs = rcs →
    (g.ctx s).stmt = some st →
    rcs.length + 2 ≤ fuel →
    (gatewayDrain fuel g s).2 = streamTrace st ∧
    ((gatewayDrain fuel g s).1.ctx s).stmt = none ∧
    ((gatewayDrain fuel g s).1.ctx s).request = none := by
  intro rcs
  induction rcs with
  | nil =>
    intro st g fuel hrcs hst hfuel
    obtain ⟨f, rfl⟩ : ∃ f, fuel = (f + 1) + 1 := ⟨fuel - 2, by omega⟩
    have hq : dqlite__stmt_query st = (SQLITE_DONE, st) := by
      unfold dqlite__stmt_query; rw [hrcs]
    have hbatch : dqlite__gateway_query_batch g st s =
        (g.setResponse s (Response.rows RowsEof.done)).setStmt s none :=
      query_batch_eq_done g s st (by rw [hq])
    rw [gatewayDrain_succ_stream (f + 1) g s st hst, hbatch,
      gatewayDrain_succ_idle f
        ((g.setResponse s (Response.rows RowsEof.done)).setStmt s none) s
        (by simp)]
    refine ⟨?_, by simp, by simp⟩
    simp [streamTrace, streamTraceAux, hrcs]
  | cons rc rest ih =>
    intro st g fuel hrcs hst hfuel
    obtain ⟨f, rfl⟩ : ∃ f, fuel = f + 1 := ⟨fuel - 1, by omega⟩
    have hq : dqlite__stmt_query st = (rc, { st with queryRcs := rest }) := by
      unfold dqlite__stmt_query; rw [hrcs]
    by_cases hrow : rc = SQLITE_ROW
    · have hbatch := query_batch_eq_row g s st (by rw [hq]; exact hrow)
      rw [gatewayDrain_succ_stream f g s st hst, hbatch]
      have hst2 : (((g.setResponse s (Response.rows RowsEof.part)).setStmt s
          (some (dqlite__stmt_query st).2)).ctx s).stmt =
          some { st with queryRcs := rest } := by
        simp [hq]
      have ihx := ih { st with queryRcs := rest } _ f rfl hst2
        (by simp only [List.length_cons] at hfuel; omega)
      refine ⟨?_, ihx.2.1, ihx.2.2⟩
      rw [ihx.1]
      simp [streamTrace, streamTraceAux, hrcs, hrow, hq]
    · obtain ⟨f', rfl⟩ : ∃ f', f = f' + 1 :=
        ⟨f - 1, by simp only [List.length_cons] at hfuel; omega⟩
      by_cases hdone : rc = SQLITE_DONE
      · have hbatch := query_batch_eq_done g s st (by rw [hq]; exact hdone)
        rw [gatewayDrain_succ_stream (f' + 1) g s st hst, hbatch,
          gatewayDrain_succ_idle f'
            ((g.setResponse s (Response.rows RowsEof.done)).setStmt s none) s
            (by simp)]
        refine ⟨?_, by simp, by simp⟩
        simp [streamTrace, streamTraceAux, hrcs, hrow, hdone,
          SQLITE_ROW, SQLITE_DONE]
      · have hbatch := query_batch_eq_fail g s st
          (by rw [hq]; exact hrow) (by rw [hq]; exact hdone)
        rw [gatewayDrain_succ_stream (f' + 1) g s st hst, hbatch,
          gatewayDrain_succ_idle f'
            ((dqlite__gateway_failure { g with error := st.error } s
              (dqlite__stmt_query st).1).setStmt s none) s
            (by simp)]
        refine ⟨?_, by simp, by simp⟩
        simp [streamTrace, streamTraceAux, hrcs, hrow, hdone, hq,
          dqlite__gateway_failure]

lemma partsThenTerminal_part (l : List Response) :
    partsThenTerminal (Response.rows RowsEof.part :: l) = partsThenTerminal l := by
  cases l with
  | nil => rfl
  | cons a l' => rfl

lemma partsThenTerminal_streamTraceAux (err : String) :
    ∀ rcs : List Int, partsThenTerminal (streamTraceAux err rcs) = true := by
  intro rcs
  induction rcs with
  | nil => rfl
  | cons rc rest ih =>
    unfold streamTraceAux
    by_cases h1 : rc = SQLITE_ROW
    · rw [if_pos h1, partsThenTerminal_part]; exact ih
    · rw [if_neg h1]
      by_cases h2 : rc = SQLITE_DONE
      · rw [if_pos h2]; rfl
      · rw [if_neg h2]; rfl

/-- A first batch (issued by the `query`/`query_sql` handler) followed by
the `flushed`-driven drain yields exactly the statement's stream trace and
frees the slot. -/
lemma batch_then_drain (g1 : Gateway) (st : Stmt) (s : Slot) (fuel : Nat)
    (hfuel : st.queryRcs.length + 2 ≤ fuel) :
    ((dqlite__gateway_query_batch g1 st s).ctx s).response ::
      (gatewayDrain fuel (dqlite__gateway_query_batch g1 st s) s).2 =
      streamTrace st ∧
    ((gatewayDrain fuel (dqlite__gateway_query_batch g1 st s) s).1.ctx
      s).stmt = none ∧
    ((gatewayDrain fuel (dqlite__gateway_query_batch g1 st s) s).1.ctx
      s).request = none := by
  rcases hrcs : st.queryRcs with _ | ⟨rc, rest⟩
  · have hq : dqlite__stmt_query st = (SQLITE_DONE, st) := by
      unfold dqlite__stmt_query; rw [hrcs]
    have hbatch := query_batch_eq_done g1 s st (by rw [hq])
    obtain ⟨f, rfl⟩ : ∃ f, fuel = f + 1 := ⟨fuel - 1, by omega⟩
    rw [hbatch, gatewayDrain_succ_idle f _ s (by simp)]
    refine ⟨?_, by simp, by simp⟩
    simp [streamTrace, streamTraceAux, hrcs]
  · have hq : dqlite__stmt_query st = (rc, { st with queryRcs := rest }) := by
      unfold dqlite__stmt_query; rw [hrcs]
    by_cases hrow : rc = SQLITE_ROW
    · have hbatch := query_batch_eq_row g1 s st (by rw [hq]; exact hrow)
      rw [hbatch]
      have hst2 : (((g1.setResponse s (Response.rows RowsEof.part)).setStmt s
          (some (dqlite__stmt_query st).2)).ctx s).stmt =
          some { st with queryRcs := rest } := by
        simp [hq]
      have hd := gatewayDrain_stream s rest { st with queryRcs := rest } _
        fuel rfl hst2
        (by simp only [hrcs, List.length_cons] at hfuel; omega)
      refine ⟨?_, hd.2.1, hd.2.2⟩
      rw [hd.1]
      simp [streamTrace, streamTraceAux, hrcs, hrow]
    · obtain ⟨f, rfl⟩ : ∃ f, fuel = f + 1 := ⟨fuel - 1, by omega⟩
      by_cases hdone : rc = SQLITE_DONE
      · have hbatch := query_batch_eq_done g1 s st (by rw [hq]; exact hdone)
        rw [hbatch, gatewayDrain_succ_idle f _ s (by simp)]
        refine ⟨?_, by simp, by simp⟩
        simp [streamTrace, streamTraceAux, hrcs, hrow, hdone,
          SQLITE_ROW, SQLITE_DONE]
      · have hbatch := query_batch_eq_fail g1 s st
          (by rw [hq]; exact hrow) (by rw [hq]; exact hdone)
        rw [hbatch, gatewayDrain_succ_idle f _ s (by simp)]
        refine ⟨?_, by simp, by simp⟩
        simp [streamTrace, streamTraceAux, hrcs, hrow, hdone, hq,
          dqlite__gateway_failure]

/-- The `query` handler, when the barrier, DB lookup, statement lookup and
bind all succeed, is exactly one `query_batch` on the looked-up
statement. -/
lemma query_handler_reduces (env : Env) (gx : Gateway) (dbId stmtId : Nat)
    (db : DB) (st : Stmt)
    (hbar : env.barrierRc = 0) (hdb : gx.db = some db) (hid : db.id = dbId)
    (hstq : dqlite__db_stmt db stmtId = some st)
    (hbind : st.bindRc = SQLITE_OK) :
    dqlite__gateway_query env gx Slot.s0 dbId stmtId =
      dqlite__gateway_query_batch gx st Slot.s0 := by
  unfold dqlite__gateway_query
  rw [if_neg (by simp [hbar])]
  simp only [hdb]
  rw [if_neg (by simp [hid])]
  simp only [hstq]
  rw [if_neg (by simp [hbind])]

/-- The `query_sql` handler, when the barrier, DB lookup, compile and bind
all succeed, registers the fresh statement and is one `query_batch` on
it. -/
lemma query_sql_handler_reduces (env : Env) (gx : Gateway) (dbId : Nat)
    (db : DB) (st : Stmt) (rest : List PrepOutcome)
    (hbar : env.barrierRc = 0) (hdb : gx.db = some db) (hid : db.id = dbId)
    (hpreps : env.preps = PrepOutcome.success st :: rest)
    (hbind : st.bindRc = SQLITE_OK) :
    dqlite__gateway_query_sql env gx Slot.s0 dbId =
      dqlite__gateway_query_batch
        { gx with db := some { db with stmts := db.stmts ++ [st] } } st
        Slot.s0 := by
  unfold dqlite__gateway_query_sql
  rw [if_neg (by simp [hbar])]
  simp only [hdb]
  rw [if_neg (by simp [hid]), hpreps]
  simp only [dqlite__db_prepare]
  rw [if_neg (by simp [hbind])]

/-- C2: each batch step yields `ROWS/PART` with the cursor suspended on
`ROW`, `ROWS/DONE` with the cursor cleared on `DONE`, and
`FAILURE{rc, stmt.error}` with the cursor cleared otherwise; `flushed`
resumes the batch exactly when the slot's cursor is non-null and frees the
slot otherwise; and for a successfully bound `query` or `query_sql` the
flushed response sequence equals the statement's stream trace, which
matches `PART* (DONE | FAILURE)`. -/
theorem query_stream_protocol :
    (∀ (g : Gateway) (st : Stmt) (s : Slot),
      ((dqlite__stmt_query st).1 = SQLITE_ROW →
        ((dqlite__gateway_query_batch g st s).ctx s).response =
          Response.rows RowsEof.part ∧
        ((dqlite__gateway_query_batch g st s).ctx s).stmt =
          some (dqlite__stmt_query st).2) ∧
      ((dqlite__stmt_query st).1 = SQLITE_DONE →
        ((dqlite__gateway_query_batch g st s).ctx s).response =
          Response.rows RowsEof.done ∧
        ((dqlite__gateway_query_batch g st s).ctx s).stmt = none) ∧
      ((dqlite__stmt_query st).1 ≠ SQLITE_ROW →
       (dqlite__stmt_query st).1 ≠ SQLITE_DONE →
        ((dqlite__gateway_query_batch g st s).ctx s).response =
          Response.failure (dqlite__stmt_query st).1 st.error ∧
        ((dqlite__gateway_query_batch g st s).ctx s).stmt = none)) ∧
    (∀ (g : Gateway) (s : Slot) (st : Stmt), (g.ctx s).stmt = some st →
      dqlite__gateway_flushed g s =
        (dqlite__gateway_query_batch g st s,
         [((dqlite__gateway_query_batch g st s).ctx s).response])) ∧
    (∀ (g : Gateway) (s : Slot), (g.ctx s).stmt = none →
      dqlite__gateway_flushed g s = (g.setRequest s none, [])) ∧
    (∀ (env : Env) (g : Gateway) (req : Request) (dbId stmtId : Nat)
       (db : DB) (st : Stmt) (fuel : Nat),
      g.ctx0.request = none →
      req.payload = RequestPayload.query dbId stmtId →
      env.barrierRc = 0 → g.db = some db → db.id = dbId →
      dqlite__db_stmt db stmtId = some st → st.bindRc = SQLITE_OK →
      st.queryRcs.length + 2 ≤ fuel →
      (dqlite__gateway_handle env g req).err = 0 ∧
      (dqlite__gateway_handle env g req).flushes ++
        (gatewayDrain fuel (dqlite__gateway_handle env g req).g Slot.s0).2 =
        streamTrace st ∧
      partsThenTerminal (streamTrace st) = true ∧
      ((gatewayDrain fuel (dqlite__gateway_handle env g req).g
        Slot.s0).1.ctx0).request = none) ∧
    (∀ (env : Env) (g : Gateway) (req : Request) (dbId : Nat) (sql : String)
       (db : DB) (st : Stmt) (rest : List PrepOutcome) (fuel : Nat),
      g.ctx0.request = none →
      req.payload = RequestPayload.querySql dbId sql →
      env.barrierRc = 0 → g.db = some db → db.id = dbId →
      env.preps = PrepOutcome.success st :: rest → st.bindRc = SQLITE_OK →
      st.queryRcs.length + 2 ≤ fuel →
      (dqlite__gateway_handle env g req).err = 0 ∧
      (dqlite__gateway_handle env g req).flushes ++
        (gatewayDrain fuel (dqlite__gateway_handle env g req).g Slot.s0).2 =
        streamTrace st ∧
      partsThenTerminal (streamTrace st) = true ∧
      ((gatewayDrain fuel (dqlite__gateway_handle env g req).g
        Slot.s0).1.ctx0).request = none) := by
  refine ⟨?_, ?_, ?_, ?_, ?_⟩
  · intro g st s
    refine ⟨?_, ?_, ?_⟩
    · intro h
      rw [query_batch_eq_row g s st h]
      simp
    · intro h
      rw [query_batch_eq_done g s st h]
      simp
    · intro h1 h2
      rw [query_batch_eq_fail g s st h1 h2]
      simp [dqlite__gateway_failure]
  · exact fun g s st hst => flushed_stream g s st hst
  · exact fun g s hst => flushed_idle g s hst
  · intro env g req dbId stmtId db st fuel hacc hreq hbar hdb hid hstq hbind
      hfuel
    obtain ⟨p, ts⟩ := req
    simp only at hreq
    subst hreq
    have h : dqlite__gateway_ok_to_accept g
        (RequestPayload.query dbId stmtId) = true := by
      simp [dqlite__gateway_ok_to_accept, slotFor, Gateway.ctx,
        Option.isNone_iff_eq_none, hacc]
    have hdb1 : (g.setRequest Slot.s0
        (some ⟨RequestPayload.query dbId stmtId, ts⟩)).db = some db := hdb
    have hH : dqlite__gateway_handle env g
        ⟨RequestPayload.query dbId stmtId, ts⟩ =
        { err := 0,
          g := dqlite__gateway_query_batch
            (g.setRequest Slot.s0
              (some ⟨RequestPayload.query dbId stmtId, ts⟩)) st Slot.s0,
          flushes := [((dqlite__gateway_query_batch
            (g.setRequest Slot.s0
              (some ⟨RequestPayload.query dbId stmtId, ts⟩)) st
            Slot.s0).ctx Slot.s0).response] } := by
      unfold dqlite__gateway_handle
      rw [if_neg (by simp [h])]
      show ({ err := 0,
              g := dqlite__gateway_query env
                (g.setRequest Slot.s0
                  (some ⟨RequestPayload.query dbId stmtId, ts⟩)) Slot.s0 dbId
                stmtId,
              flushes := [((dqlite__gateway_query env
                (g.setRequest Slot.s0
                  (some ⟨RequestPayload.query dbId stmtId, ts⟩)) Slot.s0 dbId
                stmtId).ctx Slot.s0).response] } : HandleOut) = _
      rw [query_handler_reduces env _ dbId stmtId db st hbar hdb1 hid hstq
        hbind]
    rw [hH]
    have hb := batch_then_drain
      (g.setRequest Slot.s0 (some ⟨RequestPayload.query dbId stmtId, ts⟩))
      st Slot.s0 fuel hfuel
    exact ⟨rfl, hb.1, partsThenTerminal_streamTraceAux st.error st.queryRcs,
      hb.2.2⟩
  · intro env g req dbId sql db st rest fuel hacc hreq hbar hdb hid hpreps
      hbind hfuel
    obtain ⟨p, ts⟩ := req
    simp only at hreq
    subst hreq
    have h : dqlite__gateway_ok_to_accept g
        (RequestPayload.querySql dbId sql) = true := by
      simp [dqlite__gateway_ok_to_accept, slotFor, Gateway.ctx,
        Option.isNone_iff_eq_none, hacc]
    have hdb1 : (g.setRequest Slot.s0
        (some ⟨RequestPayload.querySql dbId sql, ts⟩)).db = some db := hdb
    have hH : dqlite__gateway_handle env g
        ⟨RequestPayload.querySql dbId sql, ts⟩ =
        { err := 0,
          g := dqlite__gateway_query_batch
            { g.setRequest Slot.s0
                (some ⟨RequestPayload.querySql dbId sql, ts⟩) with
              db := some { db with stmts := db.stmts ++ [st] } } st Slot.s0,
          flushes := [((dqlite__gateway_query_batch
            { g.setRequest Slot.s0
                (some ⟨RequestPayload.querySql dbId sql, ts⟩) with
              db := some { db with stmts := db.stmts ++ [st] } } st
            Slot.s0).ctx Slot.s0).response] } := by
      unfold dqlite__gateway_handle
      rw [if_neg (by simp [h])]
      show ({ err := 0,
              g := dqlite__gateway_query_sql env
                (g.setRequest Slot.s0
                  (some ⟨RequestPayload.querySql dbId sql, ts⟩)) Slot.s0
                dbId,
              flushes := [((dqlite__gateway_query_sql env
                (g.setRequest Slot.s0
                  (some ⟨RequestPayload.querySql dbId sql, ts⟩)) Slot.s0
                dbId).ctx Slot.s0).response] } : HandleOut) = _
      rw [query_sql_handler_reduces env _ dbId db st rest hbar hdb1 hid
        hpreps hbind]
    rw [hH]
    have hb := batch_then_drain
      { g.setRequest Slot.s0 (some ⟨RequestPayload.querySql dbId sql, ts⟩) with
        db := some { db with stmts := db.stmts ++ [st] } }
      st Slot.s0 fuel hfuel
    exact ⟨rfl, hb.1, partsThenTerminal_streamTraceAux st.error st.queryRcs,
      hb.2.2⟩

/-- Concrete fixtures for the streaming witness: a statement whose steps
yield two rows then done. -/
def streamStmtW : Stmt :=
  { id := 7, hasCompiled := true, tail := none, params := 0, bindRc := 0,
    execRc := 0, lastInsertId := 0, rowsAffected := 0,
    queryRcs := [100, 100, 101], finalizeRc := 0, error := "" }

def streamDbW : DB := { id := 0, stmts := [streamStmtW], error := "" }

def streamGW : Gateway :=
  { clientId := 0, error := "",
    ctx0 := { request := none, stmt := none, response := Response.empty },
    ctx1 := { request := none, stmt := none, response := Response.empty },
    db := some streamDbW, heartbeat := 0,
    options := { heartbeatTimeout := 15, checkpointThreshold := 1000 } }

def streamEnvW : Env :=
  { leaderAddr := none, serversRc := 0, serversList := [], barrierRc := 0,
    mallocOk := true, openRc := 0, openErr := "", preps := [] }

/-- Witness for `query_stream_protocol`: a three-batch query streams
`PART, PART, DONE`. -/
theorem query_stream_protocol_witness :
    (dqlite__gateway_handle streamEnvW streamGW
      { payload := RequestPayload.query 0 7, timestamp := 0 }).flushes ++
      (gatewayDrain 5 (dqlite__gateway_handle streamEnvW streamGW
        { payload := RequestPayload.query 0 7, timestamp := 0 }).g
        Slot.s0).2 =
      [Response.rows RowsEof.part, Response.rows RowsEof.part,
       Response.rows RowsEof.done] :=
  ((query_stream_protocol.2.2.2.1 streamEnvW streamGW
    { payload := RequestPayload.query 0 7, timestamp := 0 } 0 7 streamDbW
    streamStmtW 5 rfl rfl rfl rfl rfl rfl rfl (by decide)).2.1).trans rfl

end Dqlite
